import Mathlib

/-!
# Tesseramento lifecycle: transaction helper and controller operations

A shallow embedding of `backend/config/database.js` (`transaction`) and of
`backend/controllers/tesseramentiController.js` (`updateStatus`,
`assignToStaff`, `createTesseramento`, `getTesseramenti`).

Conventions of the embedding

* The relational store is a record of tables, each table a list of rows in
  insertion order.  A SQL statement is a function on the store.
* Timestamps are natural numbers (milliseconds); money is in euro cents, so
  the literal `50.00` of the source is `5000`.
* A JavaScript exception is a value of `JsError`; code that may throw returns
  `Except JsError _`.
* `JSON.stringify` of an object literal is the list of its key/value pairs
  without the pairs whose value is `undefined`.
* A query text built by a template literal is a list of pieces, literal text
  or a placeholder `$n`; the number of parameters of a statement is the
  highest placeholder in its text.
* The method `toUpperCase` of the JavaScript runtime is a parameter of the
  definitions that call it; it is assumed only to upper-case ASCII text.
* The table definitions (DDL) and the validation middleware are not part of
  the sources.  Columns an `INSERT` does not name take their default:
  `NULL` for the nullable columns, the statement time for the two
  timestamps, the next sequence value for `id`; the default of
  `payment_status` is a parameter.
-/

namespace Aoway

/-! ## JavaScript values -/

/-- A JavaScript value as it occurs in a validated request body or in a
serialised snapshot. -/
inductive JsVal where
  | undefined
  | null
  | str (s : String)
  | num (n : Nat)
deriving DecidableEq, Repr

/-- JavaScript truthiness. -/
def JsVal.truthy : JsVal → Bool
  | .undefined => false
  | .null => false
  | .str s => s != ""
  | .num n => n != 0

/-- The value a nullable text column of a row has in JavaScript. -/
def JsVal.ofText : Option String → JsVal
  | none => .null
  | some s => .str s

/-- The value a nullable integer or timestamp column of a row has in
JavaScript. -/
def JsVal.ofNum : Option Nat → JsVal
  | none => .null
  | some n => .num n

/-- How the driver binds a value to a text parameter: `undefined` and `null`
are both sent as SQL `NULL`. -/
def JsVal.toSql : JsVal → Option String
  | .undefined => none
  | .null => none
  | .str s => some s
  | .num n => some (toString n)

/-- The serialisation `JSON.stringify` gives an object literal: the pairs in
order, a pair whose value is `undefined` being left out. -/
def JSON_stringify (fields : List (String × JsVal)) : List (String × JsVal) :=
  fields.filter (fun kv => kv.2 != JsVal.undefined)

/-- A thrown JavaScript error: its message and, for a database error, the
SQLSTATE code. -/
structure JsError where
  message : String
  code : Option String
deriving DecidableEq, Repr

deriving instance DecidableEq for Except

/-! ## `config/database.js`: the transaction helper -/

/-- What can go wrong with the connection itself: acquiring it and each of
the three control statements. -/
structure Faults where
  connectErr : Option JsError
  beginErr : Option JsError
  commitErr : Option JsError
  rollbackErr : Option JsError
deriving DecidableEq, Repr

/-- A connection on which nothing fails. -/
def Faults.clean : Faults := ⟨none, none, none, none⟩

/-- A pooled client working on a store of type `σ`: the durable state, the
state the statements of this connection see, the control and data statements
issued so far, and how often `release` was called. -/
structure Client (σ : Type) where
  committed : σ
  view : σ
  issued : List String
  released : Nat

/-- What running a callback against the connection gives: its return value or
the error it threw, the state its statements left, and the statements it
issued, each named by its verb and table. -/
structure Outcome (σ α : Type) where
  result : Except JsError α
  db : σ
  stmts : List String

/-- The observable result of `transaction`. -/
structure TxResult (σ α : Type) where
  result : Except JsError α
  store : σ
  issued : List String
  released : Nat

/-- The call `pool.connect()` on success: a client with nothing issued. -/
def connect {σ : Type} (store : σ) : Client σ :=
  ⟨store, store, [], 0⟩

/-- The call `client.query('BEGIN')`. -/
def queryBegin {σ : Type} (f : Faults) (c : Client σ) : Except JsError Unit × Client σ :=
  let c1 : Client σ := { c with issued := c.issued ++ ["BEGIN"] }
  match f.beginErr with
  | some e => (.error e, c1)
  | none => (.ok (), { c1 with view := c1.committed })

/-- The call `client.query('COMMIT')`: the state of the connection becomes
durable; when the statement fails nothing becomes durable. -/
def queryCommit {σ : Type} (f : Faults) (c : Client σ) : Except JsError Unit × Client σ :=
  let c1 : Client σ := { c with issued := c.issued ++ ["COMMIT"] }
  match f.commitErr with
  | some e => (.error e, c1)
  | none => (.ok (), { c1 with committed := c1.view })

/-- The call `client.query('ROLLBACK')`: the connection goes back to the
durable state. -/
def queryRollback {σ : Type} (f : Faults) (c : Client σ) : Except JsError Unit × Client σ :=
  let c1 : Client σ := { c with issued := c.issued ++ ["ROLLBACK"] }
  match f.rollbackErr with
  | some e => (.error e, c1)
  | none => (.ok (), { c1 with view := c1.committed })

/-- The call `callback(client)`: the callback works on the state of the
connection and its statements are added to those issued. -/
def runCallback {σ α : Type} (callback : σ → Outcome σ α) (c : Client σ) :
    Except JsError α × Client σ :=
  let o := callback c.view
  (o.result, { c with view := o.db, issued := c.issued ++ o.stmts })

/-- The `try` block of `transaction`. -/
def transactionTry {σ α : Type} (f : Faults) (callback : σ → Outcome σ α) (c : Client σ) :
    Except JsError α × Client σ :=
  match queryBegin f c with
  | (.error e, c1) => (.error e, c1)
  | (.ok _, c1) =>
    match runCallback callback c1 with
    | (.error e, c2) => (.error e, c2)
    | (.ok result, c2) =>
      match queryCommit f c2 with
      | (.error e, c3) => (.error e, c3)
      | (.ok _, c3) => (.ok result, c3)

/-- The `catch` block of `transaction`. -/
def transactionCatch {σ α : Type} (f : Faults) (r : Except JsError α × Client σ) :
    Except JsError α × Client σ :=
  match r with
  | (.ok result, c) => (.ok result, c)
  | (.error error, c) =>
    match queryRollback f c with
    | (.error e, c1) => (.error e, c1)
    | (.ok _, c1) => (.error error, c1)

/-- The `finally` block of `transaction`. -/
def transactionFinally {σ α : Type} (r : Except JsError α × Client σ) :
    Except JsError α × Client σ :=
  (r.1, { r.2 with released := r.2.released + 1 })

/-- The function `transaction` of `config/database.js`. -/
def transaction {σ α : Type} (f : Faults) (callback : σ → Outcome σ α) (store : σ) :
    TxResult σ α :=
  match f.connectErr with
  | some e => ⟨.error e, store, [], 0⟩
  | none =>
    let client := connect store
    let r := transactionFinally (transactionCatch f (transactionTry f callback client))
    ⟨r.1, r.2.committed, r.2.issued, r.2.released⟩

/-! ## The store -/

/-- A row of `users` (an applicant). -/
structure User where
  id : Nat
  email : String
  full_name : String
  phone : String
  birth_date : String
  fiscal_code : String
  address : String
  city : String
  postal_code : String
  created_at : Nat
  updated_at : Nat
deriving DecidableEq, Repr

/-- A row of `staff`. -/
structure Staff where
  id : Nat
  username : String
  email : String
  full_name : String
  role : String
  is_active : Bool
deriving DecidableEq, Repr

/-- A row of `tesseramenti` (an application). -/
structure Tesseramento where
  id : Nat
  user_id : Nat
  assigned_staff_id : Option Nat
  status : String
  payment_method : String
  payment_status : Option String
  payment_amount : Nat
  payment_reference : Option String
  payment_date : Option Nat
  notes : Option String
  rejection_reason : Option String
  completion_date : Option Nat
  created_at : Nat
  updated_at : Nat
deriving DecidableEq, Repr

/-- A row of `audit_log`, with the columns the controller writes. -/
structure AuditLog where
  tesseramento_id : Nat
  staff_id : Option Nat
  action : String
  entity_type : String
  entity_id : Nat
  old_value : Option (List (String × JsVal))
  new_value : Option (List (String × JsVal))
deriving DecidableEq, Repr

/-- The relational store: the four tables and the two id sequences. -/
structure Store where
  users : List User
  tesseramenti : List Tesseramento
  staff : List Staff
  audit_log : List AuditLog
  users_id_seq : Nat
  tesseramenti_id_seq : Nat
deriving DecidableEq, Repr

/-! ## HTTP -/

/-- The JSON bodies the controller sends. -/
inductive Body where
  | error (error : String)
  | updated (message : String) (tesseramento : Option Tesseramento)
  | created (message : String) (tesseramento : Tesseramento) (user_id : Nat)
deriving DecidableEq, Repr

/-- An HTTP response: status code and JSON body. -/
structure Response where
  status : Nat
  body : Body
deriving DecidableEq, Repr

/-- The `status_updated` event and the room it is sent to. -/
structure StatusUpdated where
  room : String
  tesseramento_id : Nat
  new_status : String
  updated_by : String
  timestamp : Nat
deriving DecidableEq, Repr

/-- What a request handler leaves behind: the response, the durable store and
the events published. -/
structure Handled where
  response : Response
  store : Store
  emitted : List StatusUpdated
deriving DecidableEq, Repr

/-! ## `updateStatus` -/

/-- The request of `updateStatus`: `req.params.id`, the three fields of
`req.validatedData` and `req.staff`. -/
structure StatusRequest where
  id : Nat
  status : String
  notes : JsVal
  rejection_reason : JsVal
  staff : Staff
deriving DecidableEq, Repr

/-- The successive readings of `new Date()` during one call of `updateStatus`:
for `completion_date`, for `updated_at` and for the event. -/
structure Dates where
  completion : Nat
  updated : Nat
  emitted : Nat
deriving DecidableEq, Repr

/-- The statement `SELECT * FROM tesseramenti WHERE id = $1`. -/
def selectTesseramento (db : Store) (id : Nat) : List Tesseramento :=
  db.tesseramenti.filter (fun t => t.id = id)

/-- The first row of `tesseramenti` with the given id, if any. -/
def findTesseramento (db : Store) (id : Nat) : Option Tesseramento :=
  (selectTesseramento db id).head?

/-- The object `updateData` of `updateStatus`, as the parameters bound to the
`UPDATE`. -/
structure UpdateData where
  status : String
  notes : Option String
  rejection_reason : Option String
  completion_date : Option Nat
  updated_at : Nat
deriving DecidableEq, Repr

/-- How `updateStatus` computes `updateData` from the request and the current
row. -/
def mkUpdateData (req : StatusRequest) (d : Dates) (current : Tesseramento) : UpdateData where
  status := req.status
  notes := if req.notes.truthy then req.notes.toSql else current.notes
  rejection_reason := if req.status = "rejected" then req.rejection_reason.toSql else none
  completion_date := if req.status = "completed" then some d.completion else current.completion_date
  updated_at := d.updated

/-- The effect of the status `UPDATE` on one row that it matches. -/
def UpdateData.apply (u : UpdateData) (t : Tesseramento) : Tesseramento :=
  { t with
    status := u.status
    notes := u.notes
    rejection_reason := u.rejection_reason
    completion_date := u.completion_date
    updated_at := u.updated_at }

/-- The statement `UPDATE tesseramenti SET status = $1, notes = $2,
rejection_reason = $3, completion_date = $4, updated_at = $5 WHERE id = $6
RETURNING *`: the rows returned and the new state. -/
def updateTesseramento (db : Store) (u : UpdateData) (id : Nat) : List Tesseramento × Store :=
  let rows := db.tesseramenti.map (fun t => if t.id = id then u.apply t else t)
  (rows.filter (fun t => t.id = id), { db with tesseramenti := rows })

/-- An `INSERT INTO audit_log`: the entry goes to the end of the log. -/
def insertAuditLog (db : Store) (entry : AuditLog) : Store :=
  { db with audit_log := db.audit_log ++ [entry] }

/-- The audit entry `updateStatus` writes. -/
def statusChangedEntry (req : StatusRequest) (current : Tesseramento) : AuditLog where
  tesseramento_id := req.id
  staff_id := some req.staff.id
  action := "status_changed"
  entity_type := "tesseramento"
  entity_id := req.id
  old_value := some (JSON_stringify [("status", JsVal.str current.status)])
  new_value := some (JSON_stringify
    [("status", JsVal.str req.status), ("notes", req.notes),
     ("rejection_reason", req.rejection_reason)])

/-- The callback `updateStatus` passes to `transaction`. -/
def updateStatusCallback (req : StatusRequest) (d : Dates) (db : Store) :
    Outcome Store (Option Tesseramento) :=
  let currentResult := selectTesseramento db req.id
  match currentResult with
  | [] => ⟨.error ⟨"Tesseramento non trovato", none⟩, db, ["SELECT tesseramenti"]⟩
  | current :: _ =>
    let updateData := mkUpdateData req d current
    let updateResult := updateTesseramento db updateData req.id
    let db2 := insertAuditLog updateResult.2 (statusChangedEntry req current)
    ⟨.ok updateResult.1.head?, db2,
      ["SELECT tesseramenti", "UPDATE tesseramenti", "INSERT audit_log"]⟩

/-- The event `updateStatus` publishes. -/
def statusUpdatedEvent (req : StatusRequest) (d : Dates) : StatusUpdated where
  room := "tesseramento_" ++ toString req.id
  tesseramento_id := req.id
  new_status := req.status
  updated_by := req.staff.full_name
  timestamp := d.emitted

/-- The response of the `catch` block of `updateStatus`. -/
def updateStatusFailed : Response :=
  ⟨500, .error "Errore nell'aggiornamento dello stato"⟩

/-- The handler `updateStatus`.  `emitErr` is the error `emit` throws, if it
throws. -/
def updateStatus (f : Faults) (emitErr : Option JsError) (d : Dates) (req : StatusRequest)
    (s : Store) : Handled :=
  let tx := transaction f (updateStatusCallback req d) s
  match tx.result with
  | .error _ => ⟨updateStatusFailed, tx.store, []⟩
  | .ok result =>
    match emitErr with
    | some _ => ⟨updateStatusFailed, tx.store, []⟩
    | none =>
      ⟨⟨200, .updated "Stato aggiornato con successo" result⟩, tx.store,
        [statusUpdatedEvent req d]⟩

/-! ## `assignToStaff` -/

/-- The request of `assignToStaff`: `req.params.id`, `req.body.staff_id`
(`none` when the body has none or has `null`) and `req.staff`. -/
structure AssignRequest where
  id : Nat
  staff_id : Option Nat
  staff : Staff
deriving DecidableEq, Repr

/-- The statement `SELECT id, full_name FROM staff WHERE id = $1 AND
is_active = true`; a comparison with `NULL` selects nothing. -/
def selectActiveStaff (db : Store) (staff_id : Option Nat) : List Staff :=
  db.staff.filter (fun st => some st.id = staff_id && st.is_active)

/-- The statement `UPDATE tesseramenti SET assigned_staff_id = $1, updated_at
= CURRENT_TIMESTAMP WHERE id = $2 RETURNING *`. -/
def updateAssignment (db : Store) (staff_id : Option Nat) (id : Nat) (now : Nat) :
    List Tesseramento × Store :=
  let rows := db.tesseramenti.map (fun t =>
    if t.id = id then { t with assigned_staff_id := staff_id, updated_at := now } else t)
  (rows.filter (fun t => t.id = id), { db with tesseramenti := rows })

/-- The audit entry `assignToStaff` writes. -/
def assignedEntry (req : AssignRequest) : AuditLog where
  tesseramento_id := req.id
  staff_id := some req.staff.id
  action := "assigned"
  entity_type := "tesseramento"
  entity_id := req.id
  old_value := none
  new_value := some (JSON_stringify
    [("assigned_to", JsVal.ofNum req.staff_id), ("assigned_by", JsVal.num req.staff.id)])

/-- The callback `assignToStaff` passes to `transaction`. -/
def assignCallback (req : AssignRequest) (now : Nat) (db : Store) : Outcome Store Tesseramento :=
  let updateResult := updateAssignment db req.staff_id req.id now
  match updateResult.1 with
  | [] => ⟨.error ⟨"Tesseramento non trovato", none⟩, updateResult.2, ["UPDATE tesseramenti"]⟩
  | row :: _ =>
    ⟨.ok row, insertAuditLog updateResult.2 (assignedEntry req),
      ["UPDATE tesseramenti", "INSERT audit_log"]⟩

/-- The response of the `catch` block of `assignToStaff`. -/
def assignFailed : Response :=
  ⟨500, .error "Errore nell'assegnazione del tesseramento"⟩

/-- The handler `assignToStaff`; `now` is `CURRENT_TIMESTAMP`. -/
def assignToStaff (f : Faults) (now : Nat) (req : AssignRequest) (s : Store) : Handled :=
  let staffCheck := selectActiveStaff s req.staff_id
  match staffCheck with
  | [] => ⟨⟨400, .error "Staff non valido"⟩, s, []⟩
  | _ :: _ =>
    let tx := transaction f (assignCallback req now) s
    match tx.result with
    | .error _ => ⟨assignFailed, tx.store, []⟩
    | .ok result =>
      ⟨⟨200, .updated "Tesseramento assegnato con successo" (some result)⟩, tx.store, []⟩

/-! ## `createTesseramento` -/

/-- The validated submission `req.validatedData`. -/
structure UserData where
  email : String
  full_name : String
  phone : String
  birth_date : String
  fiscal_code : String
  address : String
  city : String
  postal_code : String
  payment_method : String
deriving DecidableEq, Repr

/-- What the schema supplies to an `INSERT`: `CURRENT_TIMESTAMP` and the
default of `payment_status`. -/
structure Defaults where
  now : Nat
  payment_status : Option String
deriving DecidableEq, Repr

/-- The statement `SELECT id FROM users WHERE email = $1 OR fiscal_code = $2`
(the rows are kept whole; the controller reads their `id`). -/
def selectUser (db : Store) (email fiscal_code : String) : List User :=
  db.users.filter (fun u => u.email = email || u.fiscal_code = fiscal_code)

/-- The profile columns the `UPDATE users` of `createTesseramento` sets, on one
row. -/
def UserData.overwrite (userData : UserData) (now : Nat) (u : User) : User :=
  { u with
    full_name := userData.full_name
    phone := userData.phone
    birth_date := userData.birth_date
    address := userData.address
    city := userData.city
    postal_code := userData.postal_code
    updated_at := now }

/-- The statement `UPDATE users SET full_name = $1, phone = $2, birth_date =
$3, address = $4, city = $5, postal_code = $6, updated_at = CURRENT_TIMESTAMP
WHERE id = $7`. -/
def updateUser (db : Store) (userData : UserData) (userId : Nat) (now : Nat) : Store :=
  { db with users := db.users.map (fun u => if u.id = userId then userData.overwrite now u else u) }

/-- The row `INSERT INTO users` creates. -/
def newUser (db : Store) (userData : UserData) (now : Nat) : User where
  id := db.users_id_seq
  email := userData.email
  full_name := userData.full_name
  phone := userData.phone
  birth_date := userData.birth_date
  fiscal_code := userData.fiscal_code
  address := userData.address
  city := userData.city
  postal_code := userData.postal_code
  created_at := now
  updated_at := now

/-- Modelled from the spec: the unique constraints on `users.email` and
`users.fiscal_code` (the DDL is not in the sources; the spec has "unique
email, unique fiscal identifier" and the controller handles SQLSTATE 23505).
The statement is `INSERT INTO users (email, full_name, phone, birth_date,
fiscal_code, address, city, postal_code) VALUES (...) RETURNING id`; it gives
the new id and the new state, or the unique violation. -/
def insertUser (db : Store) (userData : UserData) (now : Nat) : Except JsError (Nat × Store) :=
  if db.users.any (fun u => u.email = userData.email || u.fiscal_code = userData.fiscal_code) then
    .error ⟨"duplicate key value violates unique constraint", some "23505"⟩
  else
    .ok (db.users_id_seq,
      { db with users := db.users ++ [newUser db userData now], users_id_seq := db.users_id_seq + 1 })

/-- The row `INSERT INTO tesseramenti (user_id, payment_method,
payment_amount, status) VALUES ($1, $2, $3, 'pending')` creates. -/
def newTesseramento (db : Store) (dflt : Defaults) (user_id : Nat) (payment_method : String)
    (payment_amount : Nat) : Tesseramento where
  id := db.tesseramenti_id_seq
  user_id := user_id
  assigned_staff_id := none
  status := "pending"
  payment_method := payment_method
  payment_status := dflt.payment_status
  payment_amount := payment_amount
  payment_reference := none
  payment_date := none
  notes := none
  rejection_reason := none
  completion_date := none
  created_at := dflt.now
  updated_at := dflt.now

/-- The statement `INSERT INTO tesseramenti ... RETURNING *`: the row created
and the new state. -/
def insertTesseramento (db : Store) (dflt : Defaults) (user_id : Nat) (payment_method : String)
    (payment_amount : Nat) : Tesseramento × Store :=
  let row := newTesseramento db dflt user_id payment_method payment_amount
  (row, { db with
    tesseramenti := db.tesseramenti ++ [row]
    tesseramenti_id_seq := db.tesseramenti_id_seq + 1 })

/-- The object a row of `tesseramenti` is in JavaScript, as key/value pairs. -/
def Tesseramento.toJs (t : Tesseramento) : List (String × JsVal) :=
  [("id", .num t.id), ("user_id", .num t.user_id),
   ("assigned_staff_id", JsVal.ofNum t.assigned_staff_id), ("status", .str t.status),
   ("payment_method", .str t.payment_method),
   ("payment_status", JsVal.ofText t.payment_status),
   ("payment_amount", .num t.payment_amount),
   ("payment_reference", JsVal.ofText t.payment_reference),
   ("payment_date", JsVal.ofNum t.payment_date), ("notes", JsVal.ofText t.notes),
   ("rejection_reason", JsVal.ofText t.rejection_reason),
   ("completion_date", JsVal.ofNum t.completion_date), ("created_at", .num t.created_at),
   ("updated_at", .num t.updated_at)]

/-- The audit entry `createTesseramento` writes: no `staff_id`, no
`old_value`. -/
def createdEntry (tesseramento : Tesseramento) : AuditLog where
  tesseramento_id := tesseramento.id
  staff_id := none
  action := "created"
  entity_type := "tesseramento"
  entity_id := tesseramento.id
  old_value := none
  new_value := some (JSON_stringify tesseramento.toJs)

/-- The part of the callback of `createTesseramento` after `userId` is known:
create the application, with the fee `50.00` (5000 cents), and log the
creation. -/
def createApplication (userData : UserData) (dflt : Defaults) (userId : Nat) (db : Store)
    (stmts : List String) : Outcome Store (Tesseramento × Nat) :=
  let tesseramentoResult := insertTesseramento db dflt userId userData.payment_method 5000
  let tesseramento := tesseramentoResult.1
  let db2 := insertAuditLog tesseramentoResult.2 (createdEntry tesseramento)
  ⟨.ok (tesseramento, userId), db2, stmts ++ ["INSERT tesseramenti", "INSERT audit_log"]⟩

/-- The callback `createTesseramento` passes to `transaction`. -/
def createCallback (userData : UserData) (dflt : Defaults) (db : Store) :
    Outcome Store (Tesseramento × Nat) :=
  let userResult := selectUser db userData.email userData.fiscal_code
  match userResult with
  | row :: _ =>
    let userId := row.id
    createApplication userData dflt userId (updateUser db userData userId dflt.now)
      ["SELECT users", "UPDATE users"]
  | [] =>
    match insertUser db userData dflt.now with
    | .error e => ⟨.error e, db, ["SELECT users", "INSERT users"]⟩
    | .ok (userId, db1) =>
      createApplication userData dflt userId db1 ["SELECT users", "INSERT users"]

/-- The handler `createTesseramento`. -/
def createTesseramento (f : Faults) (dflt : Defaults) (userData : UserData) (s : Store) :
    Handled :=
  let tx := transaction f (createCallback userData dflt) s
  match tx.result with
  | .error error =>
    if error.code = some "23505" then
      ⟨⟨409, .error "Utente già registrato con questa email o codice fiscale"⟩, tx.store, []⟩
    else
      ⟨⟨500, .error "Errore nella creazione del tesseramento"⟩, tx.store, []⟩
  | .ok result =>
    ⟨⟨201, .created "Tesseramento creato con successo" result.1 result.2⟩, tx.store, []⟩

/-! ## `getTesseramenti`: validation of the sort parameters -/

/-- A value of `req.query`: absent, a string, or (for a repeated parameter) an
array of strings. -/
inductive QueryVal where
  | undefined
  | str (s : String)
  | arr (xs : List String)
deriving DecidableEq, Repr

/-- A destructuring default: it is used when the parameter is absent. -/
def QueryVal.orDefault (v : QueryVal) (dflt : String) : QueryVal :=
  match v with
  | .undefined => .str dflt
  | w => w

/-- The constant `validSortColumns`. -/
def validSortColumns : List String :=
  ["created_at", "updated_at", "full_name", "status", "payment_status"]

/-- The upper-casing of ASCII text: the letters `a` to `z` become `A` to `Z`
and every other character is kept. -/
def asciiUpperCase (s : String) : String := ⟨s.data.map Char.toUpper⟩

/-- What is known of the method `toUpperCase` of the JavaScript runtime, which
is not code of the repository and is a parameter of the definitions that call
it: on a text of ASCII characters it is the upper-casing of ASCII text.
(Outside ASCII it maps further letters, the long s to `S` for one.) -/
def UpperCasesAscii (toUpperCase : String → String) : Prop :=
  ∀ s : String, (∀ c ∈ s.data, c.toNat < 128) → toUpperCase s = asciiUpperCase s

/-- The constant `sortColumn`: `validSortColumns.includes(sort_by) ? sort_by :
'created_at'`; an array is never an element of the list. -/
def sortColumn (sort_by : QueryVal) : String :=
  match sort_by with
  | .str s => if s ∈ validSortColumns then s else "created_at"
  | _ => "created_at"

/-- The constant `sortDirection`: `sort_order.toUpperCase() === 'ASC' ? 'ASC' :
'DESC'`; a value that is not a string has no method `toUpperCase` and the
call throws. -/
def sortDirection (toUpperCase : String → String) (sort_order : QueryVal) :
    Except JsError String :=
  match sort_order with
  | .str s => .ok (if toUpperCase s = "ASC" then "ASC" else "DESC")
  | _ => .error ⟨"sort_order.toUpperCase is not a function", none⟩

/-- The `ORDER BY` line of the listing query, from the raw query parameters
`sort_by` and `sort_order`. -/
def orderBy (toUpperCase : String → String) (sort_by sort_order : QueryVal) :
    Except JsError String :=
  match sortDirection toUpperCase (sort_order.orDefault "DESC") with
  | .error e => .error e
  | .ok dir => .ok ("ORDER BY t." ++ sortColumn (sort_by.orDefault "created_at") ++ " " ++ dir)

/-! ## `getTesseramenti`: the listing -/

/-- JavaScript truthiness of a value of `req.query`: an absent value and the
empty string are falsy, an array is truthy. -/
def QueryVal.truthy : QueryVal → Bool
  | .undefined => false
  | .str s => s != ""
  | .arr _ => true

/-- The text a value of `req.query` gives inside a template literal: an array
gives its elements joined by commas. -/
def QueryVal.toStr : QueryVal → String
  | .undefined => "undefined"
  | .str s => s
  | .arr xs => ",".intercalate xs

/-- A piece of a query text built by a template literal: literal text, or a
placeholder `$n` written by `$${paramIndex}`. -/
inductive Frag where
  | lit (s : String)
  | ph (n : Nat)
deriving DecidableEq, Repr

/-- The text of a piece. -/
def Frag.render : Frag → String
  | .lit s => s
  | .ph n => "$" ++ toString n

/-- The text of a query. -/
def render (q : List Frag) : String :=
  String.join (q.map Frag.render)

/-- The number of parameters a query text refers to: the highest placeholder
in it. -/
def parameters (q : List Frag) : Nat :=
  q.foldr (fun f m => match f with
    | .ph n => max n m
    | .lit _ => m) 0

/-- A value of the array `queryParams`: a value of `req.query` or a number. -/
inductive Param where
  | val (v : QueryVal)
  | num (n : Int)
deriving DecidableEq, Repr

/-- The request of `getTesseramenti`: the fields of `req.query`. For `page`
and `limit` the number the parameter converts to is kept; `none` is an absent
parameter. -/
structure ListRequest where
  status : QueryVal
  assigned_staff_id : QueryVal
  payment_status : QueryVal
  search : QueryVal
  page : Option Nat
  limit : Option Nat
  sort_by : QueryVal
  sort_order : QueryVal
deriving DecidableEq, Repr

/-- The three variables `whereConditions`, `queryParams` and `paramIndex`. -/
structure WhereState where
  whereConditions : List (List Frag)
  queryParams : List Param
  paramIndex : Nat
deriving DecidableEq, Repr

/-- One of the three blocks `if (v) { whereConditions.push(column = $n);
queryParams.push(v) }` with `paramIndex++`. -/
def pushEquals (column : String) (v : QueryVal) (w : WhereState) : WhereState :=
  if v.truthy then
    ⟨w.whereConditions ++ [[.lit (column ++ " = "), .ph w.paramIndex]],
      w.queryParams ++ [.val v], w.paramIndex + 1⟩
  else w

/-- The block `if (search) { ... }`: one condition over three columns with
the same placeholder, one parameter. -/
def pushSearch (search : QueryVal) (w : WhereState) : WhereState :=
  if search.truthy then
    ⟨w.whereConditions ++
        [[.lit "(u.full_name ILIKE ", .ph w.paramIndex, .lit " OR u.email ILIKE ",
          .ph w.paramIndex, .lit " OR u.fiscal_code ILIKE ", .ph w.paramIndex, .lit ")"]],
      w.queryParams ++ [.val (.str ("%" ++ search.toStr ++ "%"))], w.paramIndex + 1⟩
  else w

/-- The part `Build WHERE conditions` of `getTesseramenti`. -/
def buildWhere (req : ListRequest) : WhereState :=
  pushSearch req.search
    (pushEquals "t.payment_status" req.payment_status
      (pushEquals "t.assigned_staff_id" req.assigned_staff_id
        (pushEquals "t.status" req.status ⟨[], [], 1⟩)))

/-- The result of `whereConditions.join(' AND ')`. -/
def joinAnd : List (List Frag) → List Frag
  | [] => []
  | [c] => c
  | c :: cs => c ++ Frag.lit " AND " :: joinAnd cs

/-- The constant `whereClause`. -/
def whereClause (whereConditions : List (List Frag)) : List Frag :=
  if whereConditions.length > 0 then Frag.lit "WHERE " :: joinAnd whereConditions else []

/-- The constant `tesseramentiQuery`, its select list shortened;
`orderByLine` is the line `ORDER BY t.${sortColumn} ${sortDirection}` and the
last line, `LIMIT $${paramIndex++} OFFSET $${paramIndex++}`, takes the next
two placeholders. -/
def tesseramentiQuery (whereClause : List Frag) (orderByLine : String) (paramIndex : Nat) :
    List Frag :=
  [Frag.lit ("SELECT t.id, t.status, u.id as user_id, u.full_name, s.id as staff_id " ++
      "FROM tesseramenti t JOIN users u ON t.user_id = u.id " ++
      "LEFT JOIN staff s ON t.assigned_staff_id = s.id ")] ++
    whereClause ++
    [.lit (" " ++ orderByLine ++ " LIMIT "), .ph paramIndex, .lit " OFFSET ",
      .ph (paramIndex + 1)]

/-- The constant `countQuery`. -/
def countQuery (whereClause : List Frag) : List Frag :=
  [Frag.lit ("SELECT COUNT(*) as total FROM tesseramenti t JOIN users u ON t.user_id = u.id " ++
      "LEFT JOIN staff s ON t.assigned_staff_id = s.id ")] ++
    whereClause

/-- The call `xs.slice(0, -k)`: all but the last `k` elements. -/
def slice0 {α : Type} (xs : List α) (k : Nat) : List α :=
  xs.take (xs.length - k)

/-- The function `query` of `config/database.js` against PostgreSQL.  The
database rejects a statement when the number of values bound differs from the
number of parameters its text refers to; for a statement it accepts, `run`
stands for the result it computes. -/
def poolQuery {ρ : Type} (run : List Frag → List Param → ρ) (text : List Frag)
    (params : List Param) : Except JsError ρ :=
  if params.length = parameters text then .ok (run text params)
  else .error ⟨"the values bound do not match the parameters of the statement", none⟩

/-- A row of the listing: the application joined with its applicant and its
staff member, and the three counts, already converted by `parseInt`. -/
structure ListingRow where
  tesseramento : Tesseramento
  user : User
  staff : Option Staff
  unread_messages : Nat
  documents_count : Nat
  approved_documents : Nat
deriving DecidableEq, Repr

/-- The object `pagination` of the response. -/
structure Pagination where
  current_page : Nat
  total_pages : Nat
  total_items : Nat
  items_per_page : Nat
  has_next : Bool
  has_prev : Bool
deriving DecidableEq, Repr

/-- The constant `totalPages`: `Math.ceil(total / limit)`, for `limit` not
zero. -/
def totalPages (total limit : Nat) : Nat :=
  ⌈(total : ℚ) / (limit : ℚ)⌉₊

/-- How `getTesseramenti` fills `pagination` from `page`, `limit` and
`total`. -/
def pagination (page limit total : Nat) : Pagination where
  current_page := page
  total_pages := totalPages total limit
  total_items := total
  items_per_page := limit
  has_next := decide (page < totalPages total limit)
  has_prev := decide (page > 1)

/-- The JSON bodies `getTesseramenti` sends. -/
inductive ListBody where
  | error (error : String)
  | listing (tesseramenti : List ListingRow) (pagination : Pagination)
deriving DecidableEq, Repr

/-- The response of `getTesseramenti`. -/
structure ListResponse where
  status : Nat
  body : ListBody
deriving DecidableEq, Repr

/-- The response of the `catch` block of `getTesseramenti`. -/
def listFailed : ListResponse :=
  ⟨500, .error "Errore nel caricamento dei tesseramenti"⟩

/-- The part of `getTesseramenti` after `await Promise.all([...])`: when one of
the two queries was rejected the `catch` block answers, otherwise the rows and
the pagination block are sent. -/
def listRespond (page limit : Nat) (tesseramentiResult : Except JsError (List ListingRow))
    (countResult : Except JsError Nat) : ListResponse :=
  match tesseramentiResult, countResult with
  | .ok rows, .ok total => ⟨200, .listing rows (pagination page limit total)⟩
  | _, _ => listFailed

/-- The array `queryParams` after `queryParams.push(limit, offset)`, with
`offset = (page - 1) * limit`. -/
def queryParams (req : ListRequest) : List Param :=
  let page := req.page.getD 1
  let limit := req.limit.getD 20
  let offset : Int := ((page : Int) - 1) * (limit : Int)
  (buildWhere req).queryParams ++ [.num limit, .num offset]

/-- The handler `getTesseramenti`; `toUpperCase` is the method of the runtime,
`runSelect` and `runCount` stand for what the database computes for the two
statements. Both statements are sent with `queryParams.slice(0, -2)`. -/
def getTesseramenti (toUpperCase : String → String)
    (runSelect : List Frag → List Param → List ListingRow)
    (runCount : List Frag → List Param → Nat) (req : ListRequest) : ListResponse :=
  let page := req.page.getD 1
  let limit := req.limit.getD 20
  let w := buildWhere req
  let whereClause := whereClause w.whereConditions
  match orderBy toUpperCase req.sort_by req.sort_order with
  | .error _ => listFailed
  | .ok orderByLine =>
    let tesseramentiQuery := tesseramentiQuery whereClause orderByLine w.paramIndex
    let countQuery := countQuery whereClause
    listRespond page limit
      (poolQuery runSelect tesseramentiQuery (slice0 (queryParams req) 2))
      (poolQuery runCount countQuery (slice0 (queryParams req) 2))

/-! ## The filters of the listing as the specification has them -/

/-- The four filters of the listing. -/
inductive Filter where
  | status
  | assigned_staff_id
  | payment_status
  | search
deriving DecidableEq, Repr

/-- The filters a request supplies, with their values, in the order status,
assigned staff, payment status, search: those whose value is not empty. -/
def suppliedFilters (req : ListRequest) : List (Filter × QueryVal) :=
  [(Filter.status, req.status), (Filter.assigned_staff_id, req.assigned_staff_id),
   (Filter.payment_status, req.payment_status), (Filter.search, req.search)].filter
    (fun fv => fv.2.truthy)

/-- The condition of a filter when its placeholder is `$k`: equality on the
column of the application, or for the search a case-insensitive match of
name, e-mail address or fiscal code. -/
def Filter.condition (k : Nat) : Filter → List Frag
  | .status => [.lit "t.status = ", .ph k]
  | .assigned_staff_id => [.lit "t.assigned_staff_id = ", .ph k]
  | .payment_status => [.lit "t.payment_status = ", .ph k]
  | .search =>
    [.lit "(u.full_name ILIKE ", .ph k, .lit " OR u.email ILIKE ", .ph k,
     .lit " OR u.fiscal_code ILIKE ", .ph k, .lit ")"]

/-- The text of the condition of a filter when its placeholder is `$k`, as
the specification has it: equality on the column of the application, or for
the search a case-insensitive match of name, e-mail address or fiscal code
against one parameter. -/
def Filter.conditionText (k : Nat) : Filter → String
  | .status => "t.status = $" ++ toString k
  | .assigned_staff_id => "t.assigned_staff_id = $" ++ toString k
  | .payment_status => "t.payment_status = $" ++ toString k
  | .search =>
    "(u.full_name ILIKE $" ++ toString k ++ " OR u.email ILIKE $" ++ toString k ++
      " OR u.fiscal_code ILIKE $" ++ toString k ++ ")"

/-- The parameter of a filter: its value, and for the search the value
between two `%`. -/
def Filter.parameter : Filter → QueryVal → Param
  | .search, v => .val (.str ("%" ++ v.toStr ++ "%"))
  | _, v => .val v

/-- The conditions of a list of filters, the first with placeholder `$k`, the
next with `$(k+1)`, and so on. -/
def conditionsFrom : Nat → List (Filter × QueryVal) → List (List Frag)
  | _, [] => []
  | k, fv :: rest => fv.1.condition k :: conditionsFrom (k + 1) rest

/-! ## Sample data -/

/-- A staff member. -/
def anna : Staff := ⟨1, "anna", "anna@x.com", "Anna", "admin", true⟩

/-- A pending application. -/
def row7 : Tesseramento :=
  ⟨7, 3, none, "pending", "card", none, 5000, none, none, none, none, none, 100, 100⟩

/-- A store with one application and one staff member. -/
def store7 : Store := ⟨[], [row7], [anna], [], 4, 8⟩

/-- The readings of the clock used in the examples. -/
def dates9 : Dates := ⟨900, 901, 902⟩

/-- A rejection of application 7. -/
def reject7 : StatusRequest := ⟨7, "rejected", .null, .str "incomplete documents", anna⟩

/-- Application 7 after the rejection. -/
def rejected7 : Tesseramento :=
  ⟨7, 3, none, "rejected", "card", none, 5000, none, none, none, some "incomplete documents",
    none, 100, 901⟩

/-- Application 7 after completion at time 900. -/
def completed7 : Tesseramento :=
  ⟨7, 3, none, "completed", "card", none, 5000, none, none, none, none, some 900, 100, 901⟩

/-- Application 7 completed at time 900 and then put back in review. -/
def reviewed7 : Tesseramento :=
  ⟨7, 3, none, "in_review", "card", none, 5000, none, none, some "checking", none, some 900,
    100, 951⟩

/-- A store in which application 7 is completed. -/
def store7done : Store := ⟨[], [completed7], [anna], [], 4, 8⟩

/-- The readings of the clock of a later call. -/
def dates95 : Dates := ⟨950, 951, 952⟩

/-- Application 7 set to `completed`. -/
def complete7 : StatusRequest := ⟨7, "completed", .undefined, .undefined, anna⟩

/-- Application 7 set to `in_review`. -/
def review7 : StatusRequest := ⟨7, "in_review", .str "checking", .str "ignored", anna⟩

/-- An inactive staff member. -/
def bruno : Staff := ⟨2, "bruno", "bruno@x.com", "Bruno", "staff", false⟩

/-- A store with one application, an active and an inactive staff member. -/
def store7b : Store := ⟨[], [row7], [anna, bruno], [], 4, 8⟩

/-- A callback on a counter that issues one statement and returns. -/
def countUp (n : Nat) : Outcome Nat String := ⟨.ok "done", n + 1, ["UPDATE counter"]⟩

/-- A callback on a counter that issues one statement and then throws. -/
def countFail (n : Nat) : Outcome Nat String :=
  ⟨.error ⟨"callback failed", none⟩, n + 1, ["UPDATE counter"]⟩

/-- A connection on which `ROLLBACK` fails. -/
def rollbackLost : Faults := ⟨none, none, none, some ⟨"connection lost", none⟩⟩

/-- A connection on which `COMMIT` fails. -/
def commitLost : Faults := ⟨none, none, some ⟨"commit refused", none⟩, none⟩

/-- A submission. -/
def submission : UserData :=
  ⟨"a@x.com", "Ada", "555", "1990-01-01", "ABC123", "Via Roma 1", "Roma", "00100", "card"⟩

/-- What the schema supplies in the examples. -/
def defaults6 : Defaults := ⟨600, some "pending"⟩

/-- An applicant with the e-mail address of the submission and another fiscal
code. -/
def ada : User :=
  ⟨3, "a@x.com", "A. Old", "111", "1990-01-01", "OLD999", "Via Po 2", "Torino", "10100", 50, 50⟩

/-- A store in which the submitting applicant exists. -/
def store7u : Store := ⟨[ada], [row7], [anna], [], 4, 8⟩

/-- A listing request: page 3 of 20, filtered by status and search. -/
def page3 : ListRequest :=
  ⟨.str "pending", .undefined, .undefined, .str "ada", some 3, some 20, .undefined, .undefined⟩

/-- The listing request of the example: page 3 of 20, no filter, default
order. -/
def page3of20 : ListRequest :=
  ⟨.undefined, .undefined, .undefined, .undefined, some 3, some 20, .undefined, .undefined⟩

/-- A database with 45 matching applications, as far as the count query sees
it. -/
def count45 : List Frag → List Param → Nat := fun _ _ => 45

/-- An error thrown by `emit`. -/
def emitFailed : JsError := ⟨"Callbacks are not supported when broadcasting", none⟩

/-- The store after the rejection of application 7 is committed. -/
def store7rejected : Store :=
  ⟨[], [rejected7], [anna],
    [⟨7, some 1, "status_changed", "tesseramento", 7, some [("status", .str "pending")],
      some [("status", .str "rejected"), ("notes", .null),
        ("rejection_reason", .str "incomplete documents")]⟩], 4, 8⟩

/-! ## Facts about `transaction` -/

/-- When `transaction` returns a value, the callback returned it and the
state the callback left is the durable state. -/
theorem transaction_ok {σ α : Type} (f : Faults) (callback : σ → Outcome σ α) (store : σ)
    (v : α) (h : (transaction f callback store).result = .ok v) :
    (callback store).result = .ok v ∧
      (transaction f callback store).store = (callback store).db := by
  rcases f with ⟨_ | ec, _ | eb, _ | em, _ | er⟩ <;>
    cases hcb : (callback store).result <;>
    simp_all [transaction, transactionFinally, transactionCatch, transactionTry, queryBegin,
      queryCommit, queryRollback, runCallback, connect]

/-- When `transaction` throws, the durable state is the one it started from. -/
theorem transaction_error {σ α : Type} (f : Faults) (callback : σ → Outcome σ α) (store : σ)
    (e : JsError) (h : (transaction f callback store).result = .error e) :
    (transaction f callback store).store = store := by
  rcases f with ⟨_ | ec, _ | eb, _ | em, _ | er⟩ <;>
    cases hcb : (callback store).result <;>
    simp_all [transaction, transactionFinally, transactionCatch, transactionTry, queryBegin,
      queryCommit, queryRollback, runCallback, connect]

/-- On a connection without faults `transaction` returns what the callback
returns and makes its state durable. -/
theorem transaction_clean_ok {σ α : Type} (callback : σ → Outcome σ α) (store : σ) (v : α)
    (h : (callback store).result = .ok v) :
    (transaction Faults.clean callback store).result = .ok v ∧
      (transaction Faults.clean callback store).store = (callback store).db := by
  simp [transaction, transactionFinally, transactionCatch, transactionTry, queryBegin,
    queryCommit, queryRollback, runCallback, connect, Faults.clean, h]

/-- When the callback throws, `transaction` throws and the durable state is
the one it started from. -/
theorem transaction_callback_error {σ α : Type} (f : Faults) (callback : σ → Outcome σ α)
    (store : σ) (e : JsError) (h : (callback store).result = .error e) :
    (∃ e2, (transaction f callback store).result = .error e2) ∧
      (transaction f callback store).store = store := by
  rcases f with ⟨_ | ec, _ | eb, _ | em, _ | er⟩ <;>
    simp [transaction, transactionFinally, transactionCatch, transactionTry, queryBegin,
      queryCommit, queryRollback, runCallback, connect, h]

/-- When the connection, `BEGIN` and `COMMIT` do not fail and the callback
returns, `transaction` returns the same value and the state the callback left
is durable. -/
theorem transaction_commits {σ α : Type} (f : Faults) (callback : σ → Outcome σ α) (store : σ)
    (v : α) (hc : f.connectErr = none) (hb : f.beginErr = none) (hm : f.commitErr = none)
    (h : (callback store).result = .ok v) :
    transaction f callback store =
      ⟨.ok v, (callback store).db, "BEGIN" :: (callback store).stmts ++ ["COMMIT"], 1⟩ := by
  simp [transaction, transactionFinally, transactionCatch, transactionTry, queryBegin,
    queryCommit, runCallback, connect, hc, hb, hm, h]

/-! ## Facts about `updateStatus` -/

theorem UpdateData.apply_id (u : UpdateData) (t : Tesseramento) : (u.apply t).id = t.id := rfl

/-- The rows the status `UPDATE` returns are the matching rows, updated. -/
theorem updateTesseramento_rows (db : Store) (u : UpdateData) (id : Nat) :
    (updateTesseramento db u id).1 = (selectTesseramento db id).map u.apply := by
  unfold updateTesseramento selectTesseramento
  simp only
  induction db.tesseramenti with
  | nil => rfl
  | cons t ts ih =>
    by_cases h : t.id = id
    · simp [List.filter_cons, h, UpdateData.apply_id, ih]
    · simp [List.filter_cons, h, ih]

/-- The status `UPDATE` touches the table of applications only. -/
theorem updateTesseramento_audit (db : Store) (u : UpdateData) (id : Nat) :
    (updateTesseramento db u id).2.audit_log = db.audit_log := rfl

/-- After the status `UPDATE` the rows with the given id are the matching
rows, updated. -/
theorem selectTesseramento_update (db : Store) (u : UpdateData) (id : Nat) (e : AuditLog) :
    selectTesseramento (insertAuditLog (updateTesseramento db u id).2 e) id =
      (selectTesseramento db id).map u.apply :=
  updateTesseramento_rows db u id

/-- The callback of `updateStatus` when the application exists. -/
theorem updateStatusCallback_cons (req : StatusRequest) (d : Dates) (s : Store)
    (current : Tesseramento) (rest : List Tesseramento)
    (hsel : selectTesseramento s req.id = current :: rest) :
    updateStatusCallback req d s =
      ⟨.ok (some ((mkUpdateData req d current).apply current)),
        insertAuditLog (updateTesseramento s (mkUpdateData req d current) req.id).2
          (statusChangedEntry req current),
        ["SELECT tesseramenti", "UPDATE tesseramenti", "INSERT audit_log"]⟩ := by
  simp [updateStatusCallback, hsel, updateTesseramento_rows]

/-- The callback of `updateStatus` when the application does not exist. -/
theorem updateStatusCallback_nil (req : StatusRequest) (d : Dates) (s : Store)
    (hsel : selectTesseramento s req.id = []) :
    updateStatusCallback req d s =
      ⟨.error ⟨"Tesseramento non trovato", none⟩, s, ["SELECT tesseramenti"]⟩ := by
  simp [updateStatusCallback, hsel]

/-- What a call of `updateStatus` that answers 200 has done: it found a
current row, returned that row updated, and left the store with the rows of
that id updated and one audit entry more. -/
theorem updateStatus_success (f : Faults) (emitErr : Option JsError) (d : Dates)
    (req : StatusRequest) (s : Store) (msg : String) (ot : Option Tesseramento)
    (h : (updateStatus f emitErr d req s).response = ⟨200, .updated msg ot⟩) :
    ∃ current, findTesseramento s req.id = some current ∧
      ot = some ((mkUpdateData req d current).apply current) ∧
      (updateStatus f emitErr d req s).store =
        insertAuditLog (updateTesseramento s (mkUpdateData req d current) req.id).2
          (statusChangedEntry req current) ∧
      findTesseramento (updateStatus f emitErr d req s).store req.id = ot := by
  unfold updateStatus at h ⊢
  cases htx : (transaction f (updateStatusCallback req d) s).result with
  | error e => simp [htx, updateStatusFailed] at h
  | ok result =>
    cases emitErr with
    | some e => simp [htx, updateStatusFailed] at h
    | none =>
      obtain ⟨hcb, hst⟩ := transaction_ok f _ s result htx
      simp only [htx] at h ⊢
      simp only [Response.mk.injEq, Body.updated.injEq, true_and] at h
      obtain ⟨-, rfl⟩ := h
      cases hsel : selectTesseramento s req.id with
      | nil => simp [updateStatusCallback_nil req d s hsel] at hcb
      | cons current rest =>
        rw [updateStatusCallback_cons req d s current rest hsel] at hcb hst
        simp only [Except.ok.injEq] at hcb
        refine ⟨current, by simp [findTesseramento, hsel], hcb.symm, hst, ?_⟩
        rw [hst, findTesseramento, selectTesseramento_update, hsel, ← hcb]
        rfl

/-- On a connection without faults, with `emit` not throwing, `updateStatus`
answers 200 for every application that exists. -/
theorem updateStatus_succeeds (d : Dates) (req : StatusRequest) (s : Store)
    (current : Tesseramento) (h : findTesseramento s req.id = some current) :
    (updateStatus Faults.clean none d req s).response =
      ⟨200, .updated "Stato aggiornato con successo"
        (some ((mkUpdateData req d current).apply current))⟩ := by
  unfold findTesseramento at h
  cases hsel : selectTesseramento s req.id with
  | nil => simp [hsel] at h
  | cons c rest =>
    simp only [hsel, List.head?_cons, Option.some.injEq] at h
    subst h
    have hcb : (updateStatusCallback req d s).result =
        .ok (some ((mkUpdateData req d c).apply c)) := by
      rw [updateStatusCallback_cons req d s c rest hsel]
    simp [updateStatus, (transaction_clean_ok _ s _ hcb).1]

/-- No row has the id when the lookup finds none. -/
theorem selectTesseramento_nil_of_find (s : Store) (id : Nat)
    (h : findTesseramento s id = none) : selectTesseramento s id = [] := by
  unfold findTesseramento at h
  cases hsel : selectTesseramento s id with
  | nil => rfl
  | cons c rest => simp [hsel] at h

/-- When the application does not exist, `updateStatus` answers through its
`catch` block and the store is the one it started from. -/
theorem updateStatus_not_found (f : Faults) (emitErr : Option JsError) (d : Dates)
    (req : StatusRequest) (s : Store) (h : findTesseramento s req.id = none) :
    updateStatus f emitErr d req s = ⟨updateStatusFailed, s, []⟩ := by
  have hcb := updateStatusCallback_nil req d s (selectTesseramento_nil_of_find s req.id h)
  obtain ⟨⟨e2, he2⟩, hst⟩ :=
    transaction_callback_error f (updateStatusCallback req d) s
      ⟨"Tesseramento non trovato", none⟩ (by rw [hcb])
  simp [updateStatus, he2, hst]

/-- When the application does not exist, the callback of `assignToStaff`
throws. -/
theorem assignCallback_not_found (req : AssignRequest) (now : Nat) (s : Store)
    (h : findTesseramento s req.id = none) :
    (assignCallback req now s).result = .error ⟨"Tesseramento non trovato", none⟩ := by
  have hsel := selectTesseramento_nil_of_find s req.id h
  unfold selectTesseramento at hsel
  rw [List.filter_eq_nil_iff] at hsel
  have hrows : (updateAssignment s req.staff_id req.id now).1 = [] := by
    unfold updateAssignment
    simp only
    rw [List.filter_eq_nil_iff]
    intro t ht
    obtain ⟨t0, ht0, rfl⟩ := List.mem_map.1 ht
    have := hsel t0 ht0
    by_cases hid : t0.id = req.id
    · simp [hid] at this
    · simp [hid]
  simp [assignCallback, hrows]

/-- When the staff member is valid and the application does not exist,
`assignToStaff` answers through its `catch` block and the store is the one it
started from. -/
theorem assignToStaff_not_found (f : Faults) (now : Nat) (req : AssignRequest) (s : Store)
    (hst : selectActiveStaff s req.staff_id ≠ [])
    (h : findTesseramento s req.id = none) :
    assignToStaff f now req s = ⟨assignFailed, s, []⟩ := by
  obtain ⟨⟨e2, he2⟩, hstore⟩ :=
    transaction_callback_error f (assignCallback req now) s _
      (assignCallback_not_found req now s h)
  cases hsel : selectActiveStaff s req.staff_id with
  | nil => exact absurd hsel hst
  | cons st rest => simp [assignToStaff, hsel, he2, hstore]

/-! ## Facts about `createTesseramento` -/

/-- The callback of `createTesseramento` when no applicant matches. -/
theorem createCallback_new (userData : UserData) (dflt : Defaults) (s : Store)
    (h : ∀ u ∈ s.users, u.email ≠ userData.email ∧ u.fiscal_code ≠ userData.fiscal_code) :
    createCallback userData dflt s =
      createApplication userData dflt s.users_id_seq
        { s with users := s.users ++ [newUser s userData dflt.now],
                 users_id_seq := s.users_id_seq + 1 }
        ["SELECT users", "INSERT users"] := by
  have hsel : selectUser s userData.email userData.fiscal_code = [] := by
    unfold selectUser
    rw [List.filter_eq_nil_iff]
    intro u hu
    simp [(h u hu).1, (h u hu).2]
  have hany : s.users.any
      (fun u => u.email = userData.email || u.fiscal_code = userData.fiscal_code) = false := by
    rw [List.any_eq_false]
    intro u hu
    simp [(h u hu).1, (h u hu).2]
  simp [createCallback, hsel, insertUser, hany]

/-- The callback of `createTesseramento` when an applicant matches. -/
theorem createCallback_existing (userData : UserData) (dflt : Defaults) (s : Store)
    (row : User) (rest : List User)
    (h : selectUser s userData.email userData.fiscal_code = row :: rest) :
    createCallback userData dflt s =
      createApplication userData dflt row.id (updateUser s userData row.id dflt.now)
        ["SELECT users", "UPDATE users"] := by
  simp [createCallback, h]

/-- The handler `createTesseramento` when the callback returns and the
connection, `BEGIN` and `COMMIT` do not fail. -/
theorem createTesseramento_commits (f : Faults) (dflt : Defaults) (userData : UserData)
    (s db : Store) (userId : Nat) (stmts : List String)
    (hc : f.connectErr = none) (hb : f.beginErr = none) (hm : f.commitErr = none)
    (h : createCallback userData dflt s = createApplication userData dflt userId db stmts) :
    createTesseramento f dflt userData s =
      ⟨⟨201, .created "Tesseramento creato con successo"
          (newTesseramento db dflt userId userData.payment_method 5000) userId⟩,
        { db with
          tesseramenti :=
            db.tesseramenti ++ [newTesseramento db dflt userId userData.payment_method 5000]
          tesseramenti_id_seq := db.tesseramenti_id_seq + 1
          audit_log := db.audit_log ++
            [createdEntry (newTesseramento db dflt userId userData.payment_method 5000)] },
        []⟩ := by
  have hres : (createCallback userData dflt s).result =
      .ok (newTesseramento db dflt userId userData.payment_method 5000, userId) := by
    rw [h]; rfl
  have htx := transaction_commits f (createCallback userData dflt) s _ hc hb hm hres
  unfold createTesseramento
  rw [htx, h]
  rfl

/-! ## The claims -/

/-- C1. When `updateStatus` answers 200, the row it returns has as
`rejection_reason` the supplied reason (SQL `NULL` when none or `null` was
supplied) if the new status is `rejected`, and `NULL` for every other new
status, whatever reason was supplied or was stored before. -/
theorem updateStatus_rejection_reason (f : Faults) (emitErr : Option JsError) (d : Dates)
    (req : StatusRequest) (s : Store) (msg : String) (ot : Option Tesseramento)
    (h : (updateStatus f emitErr d req s).response = ⟨200, .updated msg ot⟩) :
    ∃ r, ot = some r ∧
      r.rejection_reason =
        if req.status = "rejected" then req.rejection_reason.toSql else none := by
  obtain ⟨current, -, hot, -, -⟩ := updateStatus_success f emitErr d req s msg ot h
  exact ⟨_, hot, rfl⟩

/-- Rejecting application 7 with a reason: the instance of C1. -/
theorem updateStatus_rejection_reason_witness :
    ∃ r, some rejected7 = some r ∧
      r.rejection_reason =
        if reject7.status = "rejected" then reject7.rejection_reason.toSql else none :=
  updateStatus_rejection_reason Faults.clean none dates9 reject7 store7
    "Stato aggiornato con successo" _ (by decide)

/-- C2. When a call of `updateStatus` with status `completed` answers 200, the
row it returns and stores has as `completion_date` the time read for that
transition; when a following call for the same application with any other
status answers 200, the row it returns and stores has the same
`completion_date`. -/
theorem completed_then_other_status (f f2 : Faults) (emitErr emitErr2 : Option JsError)
    (d d2 : Dates) (req req2 : StatusRequest) (s : Store) (msg msg2 : String)
    (ot ot2 : Option Tesseramento)
    (hc : req.status = "completed") (hid : req2.id = req.id) (hn : req2.status ≠ "completed")
    (h : (updateStatus f emitErr d req s).response = ⟨200, .updated msg ot⟩)
    (h2 : (updateStatus f2 emitErr2 d2 req2 (updateStatus f emitErr d req s).store).response =
      ⟨200, .updated msg2 ot2⟩) :
    ∃ r r2, ot = some r ∧ ot2 = some r2 ∧
      findTesseramento (updateStatus f emitErr d req s).store req.id = some r ∧
      findTesseramento
        (updateStatus f2 emitErr2 d2 req2 (updateStatus f emitErr d req s).store).store
        req.id = some r2 ∧
      r.completion_date = some d.completion ∧ r2.completion_date = some d.completion := by
  obtain ⟨cur, -, hot, -, hfind⟩ := updateStatus_success f emitErr d req s msg ot h
  obtain ⟨cur2, hcur2, hot2, -, hfind2⟩ := updateStatus_success f2 emitErr2 d2 req2 _ msg2 ot2 h2
  rw [hid] at hcur2 hfind2
  rw [hfind, hot] at hcur2
  simp only [Option.some.injEq] at hcur2
  refine ⟨_, _, hot, hot2, by rw [hfind, hot], by rw [hfind2, hot2], ?_, ?_⟩
  · simp [UpdateData.apply, mkUpdateData, hc]
  · simp [UpdateData.apply, mkUpdateData, hn, ← hcur2, hc]

/-- Completing application 7 and putting it back in review: the instance of C2. -/
theorem completed_then_other_status_witness :
    ∃ r r2, some completed7 = some r ∧ some reviewed7 = some r2 ∧
      findTesseramento (updateStatus Faults.clean none dates9 complete7 store7).store
        complete7.id = some r ∧
      findTesseramento
        (updateStatus Faults.clean none dates95 review7
          (updateStatus Faults.clean none dates9 complete7 store7).store).store
        complete7.id = some r2 ∧
      r.completion_date = some dates9.completion ∧ r2.completion_date = some dates9.completion :=
  completed_then_other_status Faults.clean Faults.clean none none dates9 dates95 complete7
    review7 store7 "Stato aggiornato con successo" "Stato aggiornato con successo" _ _
    (by decide) (by decide) (by decide) (by decide) (by decide)

/-- C3, as the claim has it, fails: application 7 was completed at time 900;
a second transition to `completed`, at time 950, answers 200 and the row has
`completion_date` 950. -/
theorem completed_twice_restamps :
    findTesseramento store7done 7 = some completed7 ∧
    completed7.completion_date = some 900 ∧
    ∃ r, (updateStatus Faults.clean none dates95 complete7 store7done).response =
        ⟨200, .updated "Stato aggiornato con successo" (some r)⟩ ∧
      findTesseramento (updateStatus Faults.clean none dates95 complete7 store7done).store 7 =
        some r ∧
      r.completion_date = some 950 ∧ r.completion_date ≠ completed7.completion_date := by
  refine ⟨by decide, by decide,
    ⟨7, 3, none, "completed", "card", none, 5000, none, none, none, none, some 950, 100, 951⟩,
    by decide, by decide, by decide, by decide⟩

/-- C3, amended. For an application whose `completion_date` is not `NULL`, a
call of `updateStatus` that answers 200 leaves `completion_date` as it was
when the new status is not `completed`, and sets it to the time read for this
transition when the new status is `completed`; in both cases it is not
`NULL` afterwards. -/
theorem completion_date_kept_or_restamped (f : Faults) (emitErr : Option JsError) (d : Dates)
    (req : StatusRequest) (s : Store) (msg : String) (ot : Option Tesseramento)
    (current : Tesseramento) (c : Nat)
    (hcur : findTesseramento s req.id = some current)
    (hdone : current.completion_date = some c)
    (h : (updateStatus f emitErr d req s).response = ⟨200, .updated msg ot⟩) :
    ∃ r, ot = some r ∧ findTesseramento (updateStatus f emitErr d req s).store req.id = some r ∧
      (req.status ≠ "completed" → r.completion_date = some c) ∧
      (req.status = "completed" → r.completion_date = some d.completion) ∧
      r.completion_date ≠ none := by
  obtain ⟨cur, hcur2, hot, -, hfind⟩ := updateStatus_success f emitErr d req s msg ot h
  rw [hcur] at hcur2
  simp only [Option.some.injEq] at hcur2
  subst hcur2
  refine ⟨_, hot, by rw [hfind, hot], ?_, ?_, ?_⟩
  · intro hn
    simp [UpdateData.apply, mkUpdateData, hn, hdone]
  · intro hc
    simp [UpdateData.apply, mkUpdateData, hc]
  · by_cases hc : req.status = "completed" <;> simp [UpdateData.apply, mkUpdateData, hc, hdone]

/-- Putting the completed application 7 back in review: the instance of C3 as amended. -/
theorem completion_date_kept_or_restamped_witness :
    ∃ r, some reviewed7 = some r ∧
      findTesseramento (updateStatus Faults.clean none dates95 review7 store7done).store
        review7.id = some r ∧
      (review7.status ≠ "completed" → r.completion_date = some 900) ∧
      (review7.status = "completed" → r.completion_date = some dates95.completion) ∧
      r.completion_date ≠ none :=
  completion_date_kept_or_restamped Faults.clean none dates95 review7 store7done
    "Stato aggiornato con successo" _ completed7 900 (by decide) (by decide) (by decide)

/-- C4. When `updateStatus` answers 200, the audit log is the log before the
call followed by exactly one entry: action `status_changed`, the id of the
acting staff member, old value `{status}` with the status of the row read
before the update, new value `{status, notes, rejection_reason}` as supplied
(a field supplied as `undefined` is left out by `JSON.stringify`). -/
theorem updateStatus_audit_entry (f : Faults) (emitErr : Option JsError) (d : Dates)
    (req : StatusRequest) (s : Store) (msg : String) (ot : Option Tesseramento)
    (h : (updateStatus f emitErr d req s).response = ⟨200, .updated msg ot⟩) :
    ∃ current, findTesseramento s req.id = some current ∧
      (updateStatus f emitErr d req s).store.audit_log = s.audit_log ++
        [{ tesseramento_id := req.id
           staff_id := some req.staff.id
           action := "status_changed"
           entity_type := "tesseramento"
           entity_id := req.id
           old_value := some (JSON_stringify [("status", JsVal.str current.status)])
           new_value := some (JSON_stringify
             [("status", JsVal.str req.status), ("notes", req.notes),
              ("rejection_reason", req.rejection_reason)]) }] := by
  obtain ⟨current, hcur, -, hst, -⟩ := updateStatus_success f emitErr d req s msg ot h
  exact ⟨current, hcur, by rw [hst]; rfl⟩

/-- Rejecting application 7: the instance of C4. -/
theorem updateStatus_audit_entry_witness :
    ∃ current, findTesseramento store7 reject7.id = some current ∧
      (updateStatus Faults.clean none dates9 reject7 store7).store.audit_log = store7.audit_log ++
        [{ tesseramento_id := reject7.id
           staff_id := some reject7.staff.id
           action := "status_changed"
           entity_type := "tesseramento"
           entity_id := reject7.id
           old_value := some (JSON_stringify [("status", JsVal.str current.status)])
           new_value := some (JSON_stringify
             [("status", JsVal.str reject7.status), ("notes", reject7.notes),
              ("rejection_reason", reject7.rejection_reason)]) }] :=
  updateStatus_audit_entry Faults.clean none dates9 reject7 store7
    "Stato aggiornato con successo" (some rejected7) (by decide)

/-- C5. When every staff row that `staff_id` names is inactive (in particular
when it names none), `assignToStaff` answers 400 `Staff non valido` and the
store is the one it started from: no audit entry, no row changed. -/
theorem assignToStaff_invalid_staff (f : Faults) (now : Nat) (req : AssignRequest) (s : Store)
    (h : ∀ st ∈ s.staff, some st.id = req.staff_id → st.is_active = false) :
    assignToStaff f now req s = ⟨⟨400, .error "Staff non valido"⟩, s, []⟩ := by
  have hsel : selectActiveStaff s req.staff_id = [] := by
    unfold selectActiveStaff
    rw [List.filter_eq_nil_iff]
    intro st hst
    by_cases hid : some st.id = req.staff_id
    · simp [h st hst hid]
    · simp [hid]
  simp [assignToStaff, hsel]

/-- Assigning application 7 to the inactive staff member 2: the instance of C5. -/
theorem assignToStaff_invalid_staff_witness :
    (∀ st ∈ store7b.staff, some st.id = some 2 → st.is_active = false) ∧
      assignToStaff Faults.clean 500 ⟨7, some 2, anna⟩ store7b =
        ⟨⟨400, .error "Staff non valido"⟩, store7b, []⟩ :=
  ⟨by decide, assignToStaff_invalid_staff Faults.clean 500 ⟨7, some 2, anna⟩ store7b (by decide)⟩

/-- C6, what the code does. For an application id that is absent from the
store, `updateStatus` and `assignToStaff` (with a valid active staff id) leave
the store as it was, but the response is the 500 of the `catch` block, not a
404: the error `Tesseramento non trovato` thrown in the callback is not told
apart from any other error. -/
theorem not_found_answers_500 (f : Faults) (emitErr : Option JsError) (d : Dates) (now : Nat)
    (req : StatusRequest) (areq : AssignRequest) (s : Store)
    (h : findTesseramento s req.id = none) (ha : findTesseramento s areq.id = none)
    (hst : selectActiveStaff s areq.staff_id ≠ []) :
    updateStatus f emitErr d req s =
        ⟨⟨500, .error "Errore nell'aggiornamento dello stato"⟩, s, []⟩ ∧
      assignToStaff f now areq s =
        ⟨⟨500, .error "Errore nell'assegnazione del tesseramento"⟩, s, []⟩ :=
  ⟨updateStatus_not_found f emitErr d req s h, assignToStaff_not_found f now areq s hst ha⟩

/-- The absent application 99: both handlers answer 500. -/
theorem not_found_answers_500_witness :
    (updateStatus Faults.clean none dates9 ⟨99, "in_review", .undefined, .undefined, anna⟩
        store7).response.status = 500 ∧
      (assignToStaff Faults.clean 500 ⟨99, some 1, anna⟩ store7).response.status = 500 := by
  have h := not_found_answers_500 Faults.clean none dates9 500
    ⟨99, "in_review", .undefined, .undefined, anna⟩ ⟨99, some 1, anna⟩ store7
    (by decide) (by decide) (by decide)
  exact ⟨by rw [h.1], by rw [h.2]⟩

/-- C7. When no applicant has the e-mail address or the fiscal code of the
submission (and the connection, `BEGIN` and `COMMIT` do not fail),
`createTesseramento` answers 201 and the store gains exactly one applicant
row `u` with the submitted fields, exactly one application row `t` owned by
`u`, with status `pending`, the submitted payment method and the fee 50.00,
and exactly one audit entry, with action `created`, no staff id and the
snapshot of `t` as new value; the rows already there and the staff table are
unchanged. -/
theorem createTesseramento_new_applicant (f : Faults) (dflt : Defaults) (userData : UserData)
    (s : Store)
    (hc : f.connectErr = none) (hb : f.beginErr = none) (hm : f.commitErr = none)
    (hnew : ∀ u ∈ s.users, u.email ≠ userData.email ∧ u.fiscal_code ≠ userData.fiscal_code) :
    ∃ (u : User) (t : Tesseramento) (e : AuditLog),
      (createTesseramento f dflt userData s).response =
        ⟨201, .created "Tesseramento creato con successo" t u.id⟩ ∧
      (createTesseramento f dflt userData s).store.users = s.users ++ [u] ∧
      (createTesseramento f dflt userData s).store.tesseramenti = s.tesseramenti ++ [t] ∧
      (createTesseramento f dflt userData s).store.audit_log = s.audit_log ++ [e] ∧
      (createTesseramento f dflt userData s).store.staff = s.staff ∧
      (u.email = userData.email ∧ u.full_name = userData.full_name ∧
        u.phone = userData.phone ∧ u.birth_date = userData.birth_date ∧
        u.fiscal_code = userData.fiscal_code ∧ u.address = userData.address ∧
        u.city = userData.city ∧ u.postal_code = userData.postal_code) ∧
      (t.user_id = u.id ∧ t.status = "pending" ∧ t.payment_method = userData.payment_method ∧
        t.payment_amount = 5000) ∧
      (e.action = "created" ∧ e.staff_id = none ∧ e.tesseramento_id = t.id ∧
        e.entity_id = t.id ∧ e.new_value = some (JSON_stringify t.toJs)) := by
  have h := createTesseramento_commits f dflt userData s _ _ _ hc hb hm
    (createCallback_new userData dflt s hnew)
  refine ⟨newUser s userData dflt.now,
    newTesseramento
      { s with users := s.users ++ [newUser s userData dflt.now],
               users_id_seq := s.users_id_seq + 1 }
      dflt s.users_id_seq userData.payment_method 5000,
    createdEntry (newTesseramento
      { s with users := s.users ++ [newUser s userData dflt.now],
               users_id_seq := s.users_id_seq + 1 }
      dflt s.users_id_seq userData.payment_method 5000),
    ?_, ?_, ?_, ?_, ?_, ?_, ?_, ?_⟩
  · rw [h]; rfl
  · rw [h]
  · rw [h]
  · rw [h]
  · rw [h]
  · exact ⟨rfl, rfl, rfl, rfl, rfl, rfl, rfl, rfl⟩
  · exact ⟨rfl, rfl, rfl, rfl⟩
  · exact ⟨rfl, rfl, rfl, rfl, rfl⟩

/-- A first submission into a store without applicants: the instance of C7. -/
theorem createTesseramento_new_applicant_witness :
    ∃ (u : User) (t : Tesseramento) (e : AuditLog),
      (createTesseramento Faults.clean defaults6 submission store7).response =
        ⟨201, .created "Tesseramento creato con successo" t u.id⟩ ∧
      (createTesseramento Faults.clean defaults6 submission store7).store.users =
        store7.users ++ [u] ∧
      (createTesseramento Faults.clean defaults6 submission store7).store.tesseramenti =
        store7.tesseramenti ++ [t] ∧
      (createTesseramento Faults.clean defaults6 submission store7).store.audit_log =
        store7.audit_log ++ [e] ∧
      (createTesseramento Faults.clean defaults6 submission store7).store.staff = store7.staff ∧
      (u.email = submission.email ∧ u.full_name = submission.full_name ∧
        u.phone = submission.phone ∧ u.birth_date = submission.birth_date ∧
        u.fiscal_code = submission.fiscal_code ∧ u.address = submission.address ∧
        u.city = submission.city ∧ u.postal_code = submission.postal_code) ∧
      (t.user_id = u.id ∧ t.status = "pending" ∧ t.payment_method = submission.payment_method ∧
        t.payment_amount = 5000) ∧
      (e.action = "created" ∧ e.staff_id = none ∧ e.tesseramento_id = t.id ∧
        e.entity_id = t.id ∧ e.new_value = some (JSON_stringify t.toJs)) :=
  createTesseramento_new_applicant Faults.clean defaults6 submission store7 rfl rfl rfl
    (by decide)

/-- C8. When an applicant has the e-mail address or the fiscal code of the
submission (and the connection, `BEGIN` and `COMMIT` do not fail),
`createTesseramento` answers 201, adds no applicant row, gives the rows with
the id of the first matching applicant the submitted name, phone, birth date,
address, city and postal code (e-mail address and fiscal code stay), and adds
exactly one application row, owned by that applicant and `pending`, and
exactly one audit entry, with action `created`. -/
theorem createTesseramento_existing_applicant (f : Faults) (dflt : Defaults)
    (userData : UserData) (s : Store)
    (hc : f.connectErr = none) (hb : f.beginErr = none) (hm : f.commitErr = none)
    (hex : ∃ u ∈ s.users, u.email = userData.email ∨ u.fiscal_code = userData.fiscal_code) :
    ∃ (m : User) (t : Tesseramento) (e : AuditLog),
      m ∈ s.users ∧ (m.email = userData.email ∨ m.fiscal_code = userData.fiscal_code) ∧
      (createTesseramento f dflt userData s).response =
        ⟨201, .created "Tesseramento creato con successo" t m.id⟩ ∧
      (createTesseramento f dflt userData s).store.users.length = s.users.length ∧
      (createTesseramento f dflt userData s).store.users =
        s.users.map (fun u =>
          if u.id = m.id then
            { u with
              full_name := userData.full_name
              phone := userData.phone
              birth_date := userData.birth_date
              address := userData.address
              city := userData.city
              postal_code := userData.postal_code
              updated_at := dflt.now }
          else u) ∧
      (createTesseramento f dflt userData s).store.tesseramenti = s.tesseramenti ++ [t] ∧
      (createTesseramento f dflt userData s).store.audit_log = s.audit_log ++ [e] ∧
      (t.user_id = m.id ∧ t.status = "pending" ∧ t.payment_method = userData.payment_method ∧
        t.payment_amount = 5000) ∧
      (e.action = "created" ∧ e.staff_id = none ∧ e.tesseramento_id = t.id ∧
        e.new_value = some (JSON_stringify t.toJs)) := by
  cases hsel : selectUser s userData.email userData.fiscal_code with
  | nil =>
    obtain ⟨u, hu, hmatch⟩ := hex
    have : u ∈ selectUser s userData.email userData.fiscal_code := by
      unfold selectUser
      rw [List.mem_filter]
      exact ⟨hu, by simpa using hmatch⟩
    rw [hsel] at this
    exact absurd this (List.not_mem_nil u)
  | cons row rest =>
    have hrow : row ∈ selectUser s userData.email userData.fiscal_code := by
      rw [hsel]; exact List.mem_cons_self row rest
    unfold selectUser at hrow
    rw [List.mem_filter] at hrow
    have h := createTesseramento_commits f dflt userData s _ _ _ hc hb hm
      (createCallback_existing userData dflt s row rest hsel)
    refine ⟨row,
      newTesseramento (updateUser s userData row.id dflt.now) dflt row.id
        userData.payment_method 5000,
      createdEntry (newTesseramento (updateUser s userData row.id dflt.now) dflt row.id
        userData.payment_method 5000),
      hrow.1, by simpa using hrow.2, ?_, ?_, ?_, ?_, ?_, ?_, ?_⟩
    · rw [h]
    · rw [h]; simp [updateUser]
    · rw [h]; rfl
    · rw [h]; rfl
    · rw [h]; rfl
    · exact ⟨rfl, rfl, rfl, rfl⟩
    · exact ⟨rfl, rfl, rfl, rfl⟩

/-- A submission with the e-mail address of an existing applicant: the instance of C8. -/
theorem createTesseramento_existing_applicant_witness :
    ∃ (m : User) (t : Tesseramento) (e : AuditLog),
      m ∈ store7u.users ∧
      (m.email = submission.email ∨ m.fiscal_code = submission.fiscal_code) ∧
      (createTesseramento Faults.clean defaults6 submission store7u).response =
        ⟨201, .created "Tesseramento creato con successo" t m.id⟩ ∧
      (createTesseramento Faults.clean defaults6 submission store7u).store.users.length =
        store7u.users.length ∧
      (createTesseramento Faults.clean defaults6 submission store7u).store.users =
        store7u.users.map (fun u =>
          if u.id = m.id then
            { u with
              full_name := submission.full_name
              phone := submission.phone
              birth_date := submission.birth_date
              address := submission.address
              city := submission.city
              postal_code := submission.postal_code
              updated_at := defaults6.now }
          else u) ∧
      (createTesseramento Faults.clean defaults6 submission store7u).store.tesseramenti =
        store7u.tesseramenti ++ [t] ∧
      (createTesseramento Faults.clean defaults6 submission store7u).store.audit_log =
        store7u.audit_log ++ [e] ∧
      (t.user_id = m.id ∧ t.status = "pending" ∧ t.payment_method = submission.payment_method ∧
        t.payment_amount = 5000) ∧
      (e.action = "created" ∧ e.staff_id = none ∧ e.tesseramento_id = t.id ∧
        e.new_value = some (JSON_stringify t.toJs)) :=
  createTesseramento_existing_applicant Faults.clean defaults6 submission store7u rfl rfl rfl
    ⟨ada, by decide, by decide⟩

/-- C9, as the claim has it, fails: the callback throws `callback failed`,
`ROLLBACK` is issued and fails with `connection lost`, and it is the error of
`ROLLBACK` that `transaction` throws, not the error of the callback. -/
theorem transaction_rollback_error_masks :
    (countFail 0).result = .error ⟨"callback failed", none⟩ ∧
    (transaction rollbackLost countFail 0).issued = ["BEGIN", "UPDATE counter", "ROLLBACK"] ∧
    (transaction rollbackLost countFail 0).result = .error ⟨"connection lost", none⟩ ∧
    (transaction rollbackLost countFail 0).result ≠ (countFail 0).result := by
  refine ⟨rfl, rfl, rfl, ?_⟩
  simp [transaction, transactionFinally, transactionCatch, transactionTry, queryBegin,
    queryRollback, runCallback, connect, rollbackLost, countFail]

/-- C9, amended. Once the client is acquired: (1) if `BEGIN`, the callback
and `COMMIT` succeed, the statements issued are `BEGIN`, those of the
callback, `COMMIT`, the result of the callback is returned and the state it
left is durable; (2) if `BEGIN` succeeds and the callback throws, the
statements issued are `BEGIN`, those of the callback, `ROLLBACK`, the store is
the one before `BEGIN`, and the error thrown is the error of the callback
when `ROLLBACK` succeeds and the error of `ROLLBACK` when it fails; (3) if
`COMMIT` fails, `ROLLBACK` follows it and the store is the one before
`BEGIN`; (4) whenever an error is thrown the store is the one before `BEGIN`;
(5) on every path the client is released exactly once. -/
theorem transaction_all_or_nothing {σ α : Type} (f : Faults) (callback : σ → Outcome σ α)
    (store : σ) (hc : f.connectErr = none) :
    (∀ v, f.beginErr = none → (callback store).result = .ok v → f.commitErr = none →
      transaction f callback store =
        ⟨.ok v, (callback store).db, "BEGIN" :: (callback store).stmts ++ ["COMMIT"], 1⟩) ∧
    (∀ e, f.beginErr = none → (callback store).result = .error e →
      transaction f callback store =
        ⟨.error (f.rollbackErr.getD e), store,
          "BEGIN" :: (callback store).stmts ++ ["ROLLBACK"], 1⟩) ∧
    (∀ v e, f.beginErr = none → (callback store).result = .ok v → f.commitErr = some e →
      transaction f callback store =
        ⟨.error (f.rollbackErr.getD e), store,
          "BEGIN" :: (callback store).stmts ++ ["COMMIT", "ROLLBACK"], 1⟩) ∧
    (∀ e, (transaction f callback store).result = .error e →
      (transaction f callback store).store = store) ∧
    (transaction f callback store).released = 1 := by
  refine ⟨?_, ?_, ?_, ?_, ?_⟩
  · intro v hb h hm
    exact transaction_commits f callback store v hc hb hm h
  · intro e hb h
    rcases f with ⟨_ | ec, _ | eb, _ | em, _ | er⟩ <;>
      simp_all [transaction, transactionFinally, transactionCatch, transactionTry, queryBegin,
        queryRollback, runCallback, connect]
  · intro v e hb h hm
    rcases f with ⟨_ | ec, _ | eb, _ | em, _ | er⟩ <;>
      simp_all [transaction, transactionFinally, transactionCatch, transactionTry, queryBegin,
        queryCommit, queryRollback, runCallback, connect]
  · intro e h
    exact transaction_error f callback store e h
  · rcases f with ⟨_ | ec, _ | eb, _ | em, _ | er⟩ <;>
      cases hcb : (callback store).result <;>
      simp_all [transaction, transactionFinally, transactionCatch, transactionTry, queryBegin,
        queryCommit, queryRollback, runCallback, connect]

/-- The four paths of C9 as amended on a counter: success, callback failure, `COMMIT` failure, `ROLLBACK` failure. -/
theorem transaction_all_or_nothing_witness :
    transaction Faults.clean countUp 0 = ⟨.ok "done", 1, ["BEGIN", "UPDATE counter", "COMMIT"], 1⟩ ∧
    transaction Faults.clean countFail 0 =
      ⟨.error ⟨"callback failed", none⟩, 0, ["BEGIN", "UPDATE counter", "ROLLBACK"], 1⟩ ∧
    transaction commitLost countUp 0 =
      ⟨.error ⟨"commit refused", none⟩, 0,
        ["BEGIN", "UPDATE counter", "COMMIT", "ROLLBACK"], 1⟩ ∧
    (transaction rollbackLost countFail 0).released = 1 :=
  ⟨(transaction_all_or_nothing Faults.clean countUp 0 rfl).1 "done" rfl rfl rfl,
   (transaction_all_or_nothing Faults.clean countFail 0 rfl).2.1 _ rfl rfl,
   (transaction_all_or_nothing commitLost countUp 0 rfl).2.2.1 "done" _ rfl rfl rfl,
   (transaction_all_or_nothing rollbackLost countFail 0 rfl).2.2.2.2⟩

/-- C10, as the claim has it, fails: with `sort_by` set to `password` and
`sort_order` set to `ASC` the listing is ordered by `created_at` ascending,
not descending, whatever `toUpperCase` does outside ASCII; and with a
repeated `sort_order` parameter, which arrives as an array, the computation
of the direction throws. -/
theorem orderBy_password_asc :
    "password" ∉ validSortColumns ∧
    orderBy asciiUpperCase (.str "password") (.str "ASC") = .ok "ORDER BY t.created_at ASC" ∧
    orderBy asciiUpperCase (.str "password") (.str "ASC") ≠ .ok "ORDER BY t.created_at DESC" ∧
    (∀ toUpperCase, UpperCasesAscii toUpperCase →
      orderBy toUpperCase (.str "password") (.str "ASC") = .ok "ORDER BY t.created_at ASC") ∧
    (∀ toUpperCase,
      orderBy toUpperCase (.str "password") (.arr ["ASC", "DESC"]) =
        .error ⟨"sort_order.toUpperCase is not a function", none⟩) := by
  refine ⟨by decide, by decide, by decide, ?_, fun _ => rfl⟩
  intro toUpperCase hu
  have h : toUpperCase "ASC" = "ASC" := by
    rw [hu "ASC" (by decide)]
    decide
  simp only [orderBy, QueryVal.orDefault, sortDirection, h, if_true]
  decide

/-- C10, amended. For a `sort_by` that is not a string of the allow-list, the
listing is ordered by `created_at`; the direction is `DESC` when `sort_order`
is absent, and for a string `sort_order` it is `ASC` when `toUpperCase` of
the string is `ASC` and `DESC` otherwise, and nothing is thrown. For a
`sort_by` of the allow-list the sort column is that `sort_by`. The method
`toUpperCase` is any function that upper-cases ASCII text as JavaScript
does. -/
theorem orderBy_fallback (toUpperCase : String → String) (hu : UpperCasesAscii toUpperCase)
    (sort_by : QueryVal) (h : ∀ c ∈ validSortColumns, sort_by ≠ .str c) :
    sortColumn (sort_by.orDefault "created_at") = "created_at" ∧
    orderBy toUpperCase sort_by .undefined = .ok "ORDER BY t.created_at DESC" ∧
    (∀ o, orderBy toUpperCase sort_by (.str o) =
      .ok (if toUpperCase o = "ASC" then "ORDER BY t.created_at ASC"
        else "ORDER BY t.created_at DESC")) ∧
    (∀ c ∈ validSortColumns, ∀ o,
      sortColumn (QueryVal.orDefault (.str c) "created_at") = c ∧
      orderBy toUpperCase (.str c) (.str o) =
        .ok ("ORDER BY t." ++ c ++ " " ++ (if toUpperCase o = "ASC" then "ASC" else "DESC"))) := by
  have hcol : sortColumn (sort_by.orDefault "created_at") = "created_at" := by
    cases sort_by with
    | undefined => decide
    | str c =>
      have hc : c ∉ validSortColumns := fun hmem => h c hmem rfl
      simp [QueryVal.orDefault, sortColumn, hc]
    | arr xs => rfl
  have hdesc : toUpperCase "DESC" ≠ "ASC" := by
    rw [hu "DESC" (by decide)]
    decide
  refine ⟨hcol, ?_, ?_, ?_⟩
  · unfold orderBy
    rw [hcol]
    simp only [QueryVal.orDefault, sortDirection, hdesc, if_false]
    decide
  · intro o
    unfold orderBy
    rw [hcol]
    by_cases ho : toUpperCase o = "ASC"
    · simp only [QueryVal.orDefault, sortDirection, ho, if_true]; decide
    · simp only [QueryVal.orDefault, sortDirection, ho, if_false]; decide
  · intro c hc o
    simp [orderBy, QueryVal.orDefault, sortDirection, sortColumn, hc]

/-- The sort key `password`, with the upper-casing of ASCII text for
`toUpperCase`: the instance of C10 as amended. -/
theorem orderBy_fallback_witness :
    UpperCasesAscii asciiUpperCase ∧
    sortColumn (QueryVal.orDefault (.str "password") "created_at") = "created_at" ∧
    orderBy asciiUpperCase (.str "password") .undefined = .ok "ORDER BY t.created_at DESC" ∧
    (∀ o, orderBy asciiUpperCase (.str "password") (.str o) =
      .ok (if asciiUpperCase o = "ASC" then "ORDER BY t.created_at ASC"
        else "ORDER BY t.created_at DESC")) ∧
    (∀ c ∈ validSortColumns, ∀ o,
      sortColumn (QueryVal.orDefault (.str c) "created_at") = c ∧
      orderBy asciiUpperCase (.str c) (.str o) =
        .ok ("ORDER BY t." ++ c ++ " " ++
          (if asciiUpperCase o = "ASC" then "ASC" else "DESC"))) :=
  ⟨fun _ _ => rfl,
    orderBy_fallback asciiUpperCase (fun _ _ => rfl) (.str "password") (by decide)⟩

/-! ## Facts about the listing -/

/-- The constant `totalPages` is the least number of pages of `limit` rows
that hold `total` rows. -/
theorem totalPages_le (total limit k : Nat) (hl : 1 ≤ limit) :
    totalPages total limit ≤ k ↔ total ≤ k * limit := by
  unfold totalPages
  rw [Nat.ceil_le, div_le_iff₀ (by exact_mod_cast hl)]
  exact_mod_cast Iff.rfl

/-- The constant `totalPages` in integer arithmetic. -/
theorem totalPages_eq (total limit : Nat) (hl : 1 ≤ limit) :
    totalPages total limit = (total + limit - 1) / limit := by
  apply le_antisymm
  · rw [totalPages_le _ _ _ hl]
    have := Nat.div_add_mod (total + limit - 1) limit
    have hm := Nat.mod_lt (total + limit - 1) (show limit > 0 by omega)
    have hc : (total + limit - 1) / limit * limit = limit * ((total + limit - 1) / limit) :=
      Nat.mul_comm _ _
    omega
  · rw [Nat.div_le_iff_le_mul_add_pred (by omega)]
    have h := (totalPages_le total limit (totalPages total limit) hl).1 le_rfl
    have : limit * totalPages total limit = totalPages total limit * limit := Nat.mul_comm _ _
    omega

/-- The part of the handler after both queries: when both have succeeded and
the count query gave `total`, the response is a 200 whose pagination block
has `total_items = total`, `total_pages = ceil(total / limit)` (the least `k`
with `total ≤ k * limit`), `has_next = (page < total_pages)` and `has_prev =
(page > 1)`; page 3, limit 20, total 45 gives 3 pages, no next page, a
previous page. -/
theorem pagination_block (page limit total : Nat) (rows : List ListingRow) (hl : 1 ≤ limit) :
    ∃ p, listRespond page limit (.ok rows) (.ok total) = ⟨200, .listing rows p⟩ ∧
      p.total_items = total ∧
      p.total_pages = ⌈(total : ℚ) / (limit : ℚ)⌉₊ ∧
      p.total_pages = (total + limit - 1) / limit ∧
      (∀ k, p.total_pages ≤ k ↔ total ≤ k * limit) ∧
      p.has_next = decide (page < p.total_pages) ∧
      p.has_prev = decide (page > 1) ∧
      p.current_page = page ∧ p.items_per_page = limit ∧
      pagination 3 20 45 = ⟨3, 3, 45, 20, false, true⟩ := by
  refine ⟨pagination page limit total, rfl, rfl, rfl, totalPages_eq total limit hl,
    fun k => totalPages_le total limit k hl, rfl, rfl, rfl, rfl, ?_⟩
  have h3 : totalPages 45 20 = 3 := by rw [totalPages_eq 45 20 (by decide)]
  simp [pagination, h3]

/-- Page 3 of 20 over 45 rows, after both queries have succeeded. -/
theorem pagination_block_witness :
    1 ≤ 20 ∧ ∃ p, listRespond 3 20 (.ok []) (.ok 45) = ⟨200, .listing [] p⟩ ∧
      p.total_items = 45 ∧ p.total_pages = 3 ∧ p.has_next = false ∧ p.has_prev = true := by
  obtain ⟨p, h, h1, -, h2, -, h3, h4, -, -, -⟩ := pagination_block 3 20 45 [] (by decide)
  refine ⟨by decide, p, h, h1, h2, ?_, ?_⟩
  · rw [h3, h2]; decide
  · rw [h4]; decide

/-- What `buildWhere` leaves in its three variables, in terms of the filters
supplied. -/
theorem buildWhere_eq (req : ListRequest) :
    buildWhere req =
      ⟨conditionsFrom 1 (suppliedFilters req),
        (suppliedFilters req).map (fun fv => fv.1.parameter fv.2),
        (suppliedFilters req).length + 1⟩ := by
  cases h1 : req.status.truthy <;> cases h2 : req.assigned_staff_id.truthy <;>
    cases h3 : req.payment_status.truthy <;> cases h4 : req.search.truthy <;>
    simp [buildWhere, pushEquals, pushSearch, suppliedFilters, conditionsFrom,
      Filter.condition, Filter.parameter, h1, h2, h3, h4]

/-- The data query refers to two parameters more than there are filters
supplied: the placeholders of `LIMIT` and `OFFSET`. -/
theorem parameters_tesseramentiQuery (req : ListRequest) (orderByLine : String) :
    parameters (tesseramentiQuery (whereClause (buildWhere req).whereConditions) orderByLine
      (buildWhere req).paramIndex) = (suppliedFilters req).length + 2 := by
  cases h1 : req.status.truthy <;> cases h2 : req.assigned_staff_id.truthy <;>
    cases h3 : req.payment_status.truthy <;> cases h4 : req.search.truthy <;>
    simp [buildWhere, pushEquals, pushSearch, suppliedFilters, whereClause, joinAnd,
      tesseramentiQuery, parameters, h1, h2, h3, h4]

/-- The count query refers to as many parameters as there are filters
supplied. -/
theorem parameters_countQuery (req : ListRequest) :
    parameters (countQuery (whereClause (buildWhere req).whereConditions)) =
      (suppliedFilters req).length := by
  cases h1 : req.status.truthy <;> cases h2 : req.assigned_staff_id.truthy <;>
    cases h3 : req.payment_status.truthy <;> cases h4 : req.search.truthy <;>
    simp [buildWhere, pushEquals, pushSearch, suppliedFilters, whereClause, joinAnd,
      countQuery, parameters, h1, h2, h3, h4]

/-- The values sent with both queries are the parameters of the filters:
`slice(0, -2)` takes `limit` and `offset` off again. -/
theorem slice0_queryParams (req : ListRequest) :
    slice0 (queryParams req) 2 = (suppliedFilters req).map (fun fv => fv.1.parameter fv.2) := by
  simp [slice0, queryParams, buildWhere_eq]

/-- The condition at a position of `conditionsFrom` is the condition of the
filter at that position, with the placeholder counted from the first. -/
theorem conditionsFrom_getElem? (fs : List (Filter × QueryVal)) (j k : Nat) :
    (conditionsFrom j fs)[k]? = fs[k]?.map (fun fv => fv.1.condition (j + k)) := by
  induction fs generalizing j k with
  | nil => simp [conditionsFrom]
  | cons fv rest ih =>
    cases k with
    | zero => simp [conditionsFrom]
    | succ k =>
      simp only [conditionsFrom, List.getElem?_cons_succ, ih]
      congr 1
      funext fv2
      congr 1
      omega

/-- The listing `page3`: the text of its `WHERE` clause and its filter
parameters. -/
theorem buildWhere_page3 :
    render (whereClause (buildWhere page3).whereConditions) =
        "WHERE t.status = $1 AND (u.full_name ILIKE $2 OR u.email ILIKE $2 OR " ++
          "u.fiscal_code ILIKE $2)" ∧
      (buildWhere page3).queryParams = [.val (.str "pending"), .val (.str "%ada%")] ∧
      queryParams page3 = [.val (.str "pending"), .val (.str "%ada%"), .num 20, .num 40] := by
  refine ⟨by decide, by decide, by decide⟩

/-- The data query is rejected, so the handler answers through its `catch`
block, for every request. -/
theorem getTesseramenti_rejected (toUpperCase : String → String)
    (runSelect : List Frag → List Param → List ListingRow)
    (runCount : List Frag → List Param → Nat) (req : ListRequest) :
    getTesseramenti toUpperCase runSelect runCount req = listFailed := by
  unfold getTesseramenti
  cases orderBy toUpperCase req.sort_by req.sort_order with
  | error e => rfl
  | ok orderByLine =>
    have hq : poolQuery runSelect
        (tesseramentiQuery (whereClause (buildWhere req).whereConditions) orderByLine
          (buildWhere req).paramIndex)
        (slice0 (queryParams req) 2) =
        .error ⟨"the values bound do not match the parameters of the statement", none⟩ := by
      simp [poolQuery, parameters_tesseramentiQuery, slice0_queryParams]
    simp only [hq]
    rfl

/-- C11, what the code does. For page 3, limit 20 and 45 matching rows the
arithmetic of lines 103-120 gives what the claim says (3 pages, no next page,
a previous page), and the count query is accepted and gives 45; but the data
query of the same request is rejected (the slip of C12), so the handler
answers the 500 of its `catch` block and sends no pagination block, for this
request and for every other. -/
theorem pagination_example_answers_500 :
    pagination 3 20 45 = ⟨3, 3, 45, 20, false, true⟩ ∧
    poolQuery count45 (countQuery (whereClause (buildWhere page3of20).whereConditions))
        (slice0 (queryParams page3of20) 2) = .ok 45 ∧
    getTesseramenti asciiUpperCase (fun _ _ => []) count45 page3of20 =
      ⟨500, .error "Errore nel caricamento dei tesseramenti"⟩ ∧
    (∀ (toUpperCase : String → String) (runSelect : List Frag → List Param → List ListingRow)
        (runCount : List Frag → List Param → Nat) (req : ListRequest)
        (rows : List ListingRow) (p : Pagination),
      getTesseramenti toUpperCase runSelect runCount req ≠ ⟨200, .listing rows p⟩) := by
  refine ⟨?_, by decide, getTesseramenti_rejected _ _ _ _, ?_⟩
  · have h3 : totalPages 45 20 = 3 := by rw [totalPages_eq 45 20 (by decide)]
    simp [pagination, h3]
  · intro toUpperCase runSelect runCount req rows p h
    rw [getTesseramenti_rejected] at h
    simp [listFailed] at h

/-- C12, what the code does. The array `queryParams` ends with `limit` and
`offset`, but the data query is sent with `queryParams.slice(0, -2)`: the
values bound are the filter parameters alone, two fewer than the parameters
its text refers to. The database rejects the statement and the handler
answers 500, for every request. -/
theorem data_query_sent_without_limit_offset (toUpperCase : String → String)
    (runSelect : List Frag → List Param → List ListingRow)
    (runCount : List Frag → List Param → Nat) (req : ListRequest) :
    queryParams req = (buildWhere req).queryParams ++
        [Param.num ((req.limit.getD 20 : Nat) : Int),
         Param.num ((((req.page.getD 1 : Nat) : Int) - 1) * ((req.limit.getD 20 : Nat) : Int))] ∧
      slice0 (queryParams req) 2 = (buildWhere req).queryParams ∧
      (∀ orderByLine,
        parameters (tesseramentiQuery (whereClause (buildWhere req).whereConditions)
          orderByLine (buildWhere req).paramIndex) =
          (slice0 (queryParams req) 2).length + 2) ∧
      (∀ orderByLine,
        poolQuery runSelect
          (tesseramentiQuery (whereClause (buildWhere req).whereConditions) orderByLine
            (buildWhere req).paramIndex)
          (slice0 (queryParams req) 2) =
          .error ⟨"the values bound do not match the parameters of the statement", none⟩) ∧
      getTesseramenti toUpperCase runSelect runCount req = listFailed := by
  have hs : slice0 (queryParams req) 2 = (buildWhere req).queryParams := by
    rw [slice0_queryParams, buildWhere_eq]
  have hp : ∀ orderByLine,
      parameters (tesseramentiQuery (whereClause (buildWhere req).whereConditions)
        orderByLine (buildWhere req).paramIndex) =
        (slice0 (queryParams req) 2).length + 2 := by
    intro orderByLine
    rw [parameters_tesseramentiQuery, slice0_queryParams, List.length_map]
  have hq : ∀ orderByLine,
      poolQuery runSelect
        (tesseramentiQuery (whereClause (buildWhere req).whereConditions) orderByLine
          (buildWhere req).paramIndex)
        (slice0 (queryParams req) 2) =
        .error ⟨"the values bound do not match the parameters of the statement", none⟩ := by
    intro orderByLine
    simp [poolQuery, hp orderByLine]
  refine ⟨rfl, hs, hp, hq, ?_⟩
  unfold getTesseramenti
  cases orderBy toUpperCase req.sort_by req.sort_order with
  | error e => rfl
  | ok orderByLine =>
    simp only [hq orderByLine]
    rfl

/-- The text of a condition the handler builds is the text the specification
gives the filter. -/
theorem render_condition (f : Filter) (k : Nat) :
    render (f.condition k) = f.conditionText k := by
  cases f <;>
    simp [render, Frag.render, Filter.condition, Filter.conditionText, String.join,
      String.append_assoc] <;>
    apply String.ext <;> simp [String.data_append]

/-- C13. The conditions `getTesseramenti` builds are exactly one per filter
supplied, in the order status, assigned staff, payment status, search; the
text of the condition at position `k` (from 0) is the condition of that
filter with the placeholder `$(k+1)` and the parameter at position `k` is the
value of that filter, for the search the one value `%search%` matched with
`ILIKE` against name, e-mail address and fiscal code; the text of the `WHERE`
clause is `WHERE` followed by these conditions with `AND` between them, and
is empty when no filter is supplied. -/
theorem where_clause_conjunction (req : ListRequest) :
    (buildWhere req).whereConditions.length = (suppliedFilters req).length ∧
      (buildWhere req).queryParams.length = (suppliedFilters req).length ∧
      (∀ (k : Nat) (fv : Filter × QueryVal), (suppliedFilters req)[k]? = some fv →
        ((buildWhere req).whereConditions[k]?).map render =
          some (fv.1.conditionText (k + 1)) ∧
        (buildWhere req).queryParams[k]? = some (fv.1.parameter fv.2)) ∧
      (∀ v, Filter.search.parameter v = .val (.str ("%" ++ v.toStr ++ "%"))) ∧
      (∀ k, Filter.search.conditionText k =
        "(u.full_name ILIKE $" ++ toString k ++ " OR u.email ILIKE $" ++ toString k ++
          " OR u.fiscal_code ILIKE $" ++ toString k ++ ")") ∧
      render (whereClause (buildWhere req).whereConditions) =
        (if suppliedFilters req = [] then ""
         else "WHERE " ++ " AND ".intercalate
          ((suppliedFilters req).enum.map
            (fun ifv => ifv.2.1.conditionText (ifv.1 + 1)))) ∧
      (suppliedFilters req = [] → render (whereClause (buildWhere req).whereConditions) = "") := by
  have hc : (buildWhere req).whereConditions = conditionsFrom 1 (suppliedFilters req) := by
    rw [buildWhere_eq]
  have hq : (buildWhere req).queryParams =
      (suppliedFilters req).map (fun fv => fv.1.parameter fv.2) := by
    rw [buildWhere_eq]
  have hlen : ∀ (j : Nat) (fs : List (Filter × QueryVal)),
      (conditionsFrom j fs).length = fs.length := by
    intro j fs
    induction fs generalizing j with
    | nil => rfl
    | cons fv rest ih => simp [conditionsFrom, ih]
  have hw : render (whereClause (buildWhere req).whereConditions) =
      (if suppliedFilters req = [] then ""
       else "WHERE " ++ " AND ".intercalate
        ((suppliedFilters req).enum.map
          (fun ifv => ifv.2.1.conditionText (ifv.1 + 1)))) := by
    rw [hc]
    cases h1 : req.status.truthy <;> cases h2 : req.assigned_staff_id.truthy <;>
      cases h3 : req.payment_status.truthy <;> cases h4 : req.search.truthy <;>
      simp only [suppliedFilters, List.filter_cons, List.filter_nil, h1, h2, h3, h4,
        Bool.false_eq_true, if_false, if_true, conditionsFrom, whereClause, joinAnd,
        Filter.condition, Filter.conditionText, List.enum, List.enumFrom, List.map,
        List.length_cons, List.length_nil, reduceCtorEq, Nat.reduceAdd, Nat.zero_add,
        gt_iff_lt, Nat.lt_irrefl, Nat.zero_lt_succ, List.cons_append, List.nil_append,
        List.cons_ne_nil] <;>
      decide
  refine ⟨by rw [hc, hlen], by rw [hq, List.length_map], ?_, fun _ => rfl, fun _ => rfl,
    hw, ?_⟩
  · intro k fv hk
    constructor
    · rw [hc, conditionsFrom_getElem?, hk, Nat.add_comm]
      simp only [Option.map_some', render_condition]
    · rw [hq, List.getElem?_map, hk]; rfl
  · intro hnil
    rw [hw, if_pos hnil]

/-- The listing `page3`, filtered by status and search: the text of its
`WHERE` clause and its second parameter, the instance of C13. -/
theorem where_clause_conjunction_witness :
    render (whereClause (buildWhere page3).whereConditions) =
        "WHERE t.status = $1 AND (u.full_name ILIKE $2 OR u.email ILIKE $2 OR " ++
          "u.fiscal_code ILIKE $2)" ∧
      ((buildWhere page3).whereConditions[1]?).map render =
        some "(u.full_name ILIKE $2 OR u.email ILIKE $2 OR u.fiscal_code ILIKE $2)" ∧
      (buildWhere page3).queryParams[1]? = some (.val (.str "%ada%")) :=
  ⟨((where_clause_conjunction page3).2.2.2.2.2.1).trans (by decide),
   ((where_clause_conjunction page3).2.2.1 1 (Filter.search, .str "ada") (by decide)).1.trans
     (by decide),
   ((where_clause_conjunction page3).2.2.1 1 (Filter.search, .str "ada") (by decide)).2⟩

/-- C14, as the claim has it, fails: the rejection of application 7 commits
(the store holds the rejected row and the audit entry), `emit` throws, and
the response is the 500 of the `catch` block, not the success response. -/
theorem emit_failure_answers_500 :
    (transaction Faults.clean (updateStatusCallback reject7 dates9) store7).result =
        .ok (some rejected7) ∧
      (transaction Faults.clean (updateStatusCallback reject7 dates9) store7).store =
        store7rejected ∧
      updateStatus Faults.clean (some emitFailed) dates9 reject7 store7 =
        ⟨⟨500, .error "Errore nell'aggiornamento dello stato"⟩, store7rejected, []⟩ := by
  refine ⟨by decide, by decide, by decide⟩

/-- C14, amended. The event `status_updated` is published only when the
transaction has committed. For every call whose transaction commits, the
update and the audit entry stay in the store whether or not `emit` throws;
when `emit` does not throw the response is the 200 with the updated
application and the event is published; when `emit` throws the response is
the 500 of the `catch` block and no event is published. -/
theorem emit_after_commit (f : Faults) (emitErr : Option JsError) (d : Dates)
    (req : StatusRequest) (s : Store) :
    ((updateStatus f emitErr d req s).emitted ≠ [] →
      ∃ result, (transaction f (updateStatusCallback req d) s).result = .ok result) ∧
    (∀ result, (transaction f (updateStatusCallback req d) s).result = .ok result →
      (∃ current, findTesseramento s req.id = some current ∧
        (updateStatus f emitErr d req s).store =
          insertAuditLog (updateTesseramento s (mkUpdateData req d current) req.id).2
            (statusChangedEntry req current) ∧
        (updateStatus f emitErr d req s).store.audit_log =
          s.audit_log ++ [statusChangedEntry req current] ∧
        findTesseramento (updateStatus f emitErr d req s).store req.id = result) ∧
      (emitErr = none →
        (updateStatus f emitErr d req s).response =
            ⟨200, .updated "Stato aggiornato con successo" result⟩ ∧
          (updateStatus f emitErr d req s).emitted = [statusUpdatedEvent req d]) ∧
      (∀ e, emitErr = some e →
        (updateStatus f emitErr d req s).response =
            ⟨500, .error "Errore nell'aggiornamento dello stato"⟩ ∧
          (updateStatus f emitErr d req s).emitted = [])) := by
  constructor
  · intro hne
    cases htx : (transaction f (updateStatusCallback req d) s).result with
    | error e => simp [updateStatus, htx] at hne
    | ok result => exact ⟨result, rfl⟩
  · intro result htx
    obtain ⟨hcb, hst⟩ := transaction_ok f _ s result htx
    have hstore : (updateStatus f emitErr d req s).store =
        (transaction f (updateStatusCallback req d) s).store := by
      unfold updateStatus
      cases emitErr <;> simp [htx]
    refine ⟨?_, ?_, ?_⟩
    · cases hsel : selectTesseramento s req.id with
      | nil => simp [updateStatusCallback_nil req d s hsel] at hcb
      | cons current rest =>
        rw [updateStatusCallback_cons req d s current rest hsel] at hcb hst
        simp only [Except.ok.injEq] at hcb
        refine ⟨current, by simp [findTesseramento, hsel], by rw [hstore, hst], ?_, ?_⟩
        · rw [hstore, hst]; rfl
        · rw [hstore, hst, findTesseramento, selectTesseramento_update, hsel, ← hcb]
          rfl
    · intro hnone
      subst hnone
      simp [updateStatus, htx]
    · intro e he
      subst he
      simp [updateStatus, htx, updateStatusFailed]

/-- The rejection of application 7 with `emit` not throwing: the instance of
C14 as amended. -/
theorem emit_after_commit_witness :
    (updateStatus Faults.clean none dates9 reject7 store7).response =
        ⟨200, .updated "Stato aggiornato con successo" (some rejected7)⟩ ∧
      (updateStatus Faults.clean none dates9 reject7 store7).emitted =
        [statusUpdatedEvent reject7 dates9] :=
  ((emit_after_commit Faults.clean none dates9 reject7 store7).2 (some rejected7)
    (by decide)).2.1 rfl

end Aoway
